import Mathlib

/-!
# Verification of the MicroBigBrother world engine

A shallow embedding of the turn-based household simulation engine
(`World/engine.py`, `World/interaction_engine.py`, `World/state.py`,
`World/interactions.py`, `World/results.py`, `World/events.py`,
`World/house.py`, and the tools under `World/Tools/`), together with
theorems settling the specification claims about it.

Python dictionaries are embedded as association lists `List (String × α)`
with unique keys: lookup returns the first binding, assignment replaces an
existing binding in place and appends a fresh one at the end, exactly the
observable behaviour of `dict` (insertion-ordered, key-unique).
Python sets used only for membership tests (`completed_tasks`, `edges`
values, `owned_rooms`) are embedded as lists queried by membership.
`Event.id` (a fresh `uuid.uuid4()` in `World/events.py`) is elided from the
embedding: it is nondeterministic and no claim concerns it; all other
`Event` fields are kept.
-/

/-- Lookup in an association list (Python `dict.get`): first binding wins. -/
def alookup {α : Type} : List (String × α) → String → Option α
  | [], _ => none
  | (k, v) :: t, key => if k = key then some v else alookup t key

/-- Assignment in an association list (Python `d[k] = v`): replaces an
existing binding in place, appends a fresh key at the end. -/
def aset {α : Type} : List (String × α) → String → α → List (String × α)
  | [], k, v => [(k, v)]
  | (k', v') :: t, k, v => if k' = k then (k, v) :: t else (k', v') :: aset t k v

/-- The dynamically-typed values (`Any`) that appear in tool argument maps,
event payloads and actor flags. Nested argument dictionaries
(`request_anna`'s `args`) only ever hold string values in the source, so
`vDict` carries `List (String × String)`. -/
inductive AVal : Type where
  | vStr (s : String)
  | vBool (b : Bool)
  | vInt (n : Int)
  | vDict (m : List (String × String))
  | vNone
deriving DecidableEq, Repr

/-- `NPC/actors.py` `Actor`. -/
structure Actor where
  id : String
  display_name : String
  kind : String := "npc"
  owned_rooms : List String := []
  permissions : List (String × Bool) := []
  counters : List (String × Int) := []
deriving DecidableEq, Repr

/-- `World/house.py` `Room`. -/
structure Room where
  id : String
  name : String
  description : String
  objects : List String
deriving DecidableEq, Repr

/-- `World/house.py` `House`. -/
structure House where
  rooms : List (String × Room)
  edges : List (String × List String)
deriving DecidableEq, Repr

/-- One talk message `{"speaker":..., "text":..., "turn":...}`
(`World/interactions.py`). -/
structure Message where
  speaker : String
  text : String
  turn : Int
deriving DecidableEq, Repr

/-- `World/interactions.py` `Interaction`. -/
structure Interaction where
  id : String
  kind : String
  initiator : String
  target : String
  room_id : String
  status : String := "pending"
  created_turn : Int := 0
  started_turn : Option Int := none
  ended_turn : Option Int := none
  ended_by : Option String := none
  ended_reason : Option String := none
  data : List (String × AVal) := []
  max_exchanges : Int := 3
  messages : List Message := []
deriving DecidableEq, Repr

/-- `Interaction.utterances` property. -/
def Interaction.utterances (i : Interaction) : Nat := i.messages.length

/-- `Interaction.exchanges_used` property. -/
def Interaction.exchanges_used (i : Interaction) : Nat := i.utterances / 2

/-- `Interaction.max_utterances` property: `max(0, int(max_exchanges)) * 2`. -/
def Interaction.max_utterances (i : Interaction) : Nat :=
  (max 0 i.max_exchanges).toNat * 2

/-- `World/events.py` `Event` (the generated uuid `id` field is elided, see
the file header). -/
structure Event where
  turn : Int
  actor : String
  type : String
  args : List (String × AVal) := []
  ok : Bool := true
  message : String := ""
deriving DecidableEq, Repr

/-- `World/results.py` `ToolResult`. -/
structure ToolResult where
  ok : Bool
  message : String
  events : List Event := []
  data : List (String × AVal) := []
  consume_turn : Bool := true
deriving DecidableEq, Repr

/-- `ToolResult(False, msg)` with all defaults. -/
def ToolResult.fail (msg : String) : ToolResult := ⟨false, msg, [], [], true⟩

/-- `World/tasks.py` `TaskInstance` (present in `WorldState.tasks`; never
created by any claimed operation). -/
structure TaskInstance where
  id : String
  name : String
  actor : String
  args : List (String × AVal) := []
  status : String := "queued"
  created_turn : Int := 0
  started_turn : Option Int := none
  completed_turn : Option Int := none
  progress : List (String × AVal) := []
deriving DecidableEq, Repr

/-- `World/state.py` `WorldState`. -/
structure WorldState where
  locations : List (String × String)
  turn : Int := 0
  room_locked : List (String × Bool) := []
  completed_tasks : List String := []
  actor_counters : List (String × List (String × Int)) := []
  actor_flags : List (String × List (String × AVal)) := []
  turn_order : List String := []
  turn_index : Int := 0
  actors : List (String × Actor) := []
  events : List Event := []
  tasks : List (String × TaskInstance) := []
  interactions : List (String × Interaction) := []
  next_task_id : Int := 1
  next_interaction_id : Int := 1
deriving DecidableEq, Repr

/-- `World/state.py` `current_actor`. -/
def current_actor (s : WorldState) : String :=
  if s.turn_order = [] then "player"
  else (s.turn_order.get? s.turn_index.toNat).getD ""

/-- `World/state.py` `make_initial_state`. -/
def make_initial_state : WorldState :=
  { locations := [("kevin", "living_room"), ("anna", "living_room")]
    turn := 0
    room_locked := [("anna_room", true), ("kevin_room", false)]
    completed_tasks := []
    actor_counters :=
      [("kevin", [("requests_left", 9)]),
       ("anna", [("guesses_left", 1), ("rejects_left", 3)])]
    actor_flags :=
      [("kevin", [("cooked_this_turn", AVal.vBool false)]),
       ("anna", [("cooked_this_turn", AVal.vBool false)])]
    turn_order := ["kevin", "anna"]
    turn_index := 0
    actors :=
      [("kevin", { id := "kevin", display_name := "Kevin", kind := "npc",
                   owned_rooms := ["kevin_room"] }),
       ("anna", { id := "anna", display_name := "Anna", kind := "npc",
                  owned_rooms := ["anna_room"] })]
    events := []
    tasks := []
    interactions := []
    next_task_id := 1
    next_interaction_id := 1 }

/-! ## `World/engine.py` -/

/-- `append_events`. -/
def append_events (s : WorldState) (evs : List Event) : WorldState :=
  if evs = [] then s else { s with events := s.events ++ evs }

/-- `emit`: builds one event stamped with the current turn and appends it. -/
def emit (s : WorldState) (actor type : String) (args : List (String × AVal))
    (ok : Bool) (message : String) : WorldState × Event :=
  let ev : Event := { turn := s.turn, actor := actor, type := type,
                      args := args, ok := ok, message := message }
  (append_events s [ev], ev)

/-- `is_locked`: `room_locked.get(room_id, False)`. -/
def is_locked (s : WorldState) (room_id : String) : Bool :=
  (alookup s.room_locked room_id).getD false

/-- `can_enter_room`: locks block entry. -/
def can_enter_room (s : WorldState) (_who room_id : String) : Bool :=
  !(is_locked s room_id)

/-- `can_exit_room`: unconditionally true, locks never block exit. -/
def can_exit_room (_s : WorldState) (_who _room_id : String) : Bool := true

/-- `room_owner`: first actor whose `owned_rooms` contains the room. -/
def room_owner (s : WorldState) (room_id : String) : Option String :=
  (s.actors.find? (fun p => p.2.owned_rooms.contains room_id)).map (·.1)

/-- `is_owner_of_room`. -/
def is_owner_of_room (s : WorldState) (who room_id : String) : Bool :=
  room_owner s room_id = some who

/-- `can_toggle_lock`: lockable room, registered owner, caller is the owner,
caller inside or adjacent. -/
def can_toggle_lock (house : House) (s : WorldState) (who room_id : String) :
    Bool × String :=
  if (alookup house.rooms room_id).isNone then
    (false, s!"Unknown room: {room_id}")
  else
    match room_owner s room_id with
    | none => (false, s!"Room has no owner: {room_id}")
    | some owner =>
      if who ≠ owner then
        (false, s!"Denied: only {owner} can lock/unlock {room_id}")
      else
        match alookup s.locations who with
        | none => (false, s!"Unknown entity: {who}")
        | some who_loc =>
          if who_loc = room_id then (true, "OK")
          else if ((alookup house.edges who_loc).getD []).contains room_id then
            (true, "OK")
          else
            (false,
             s!"Denied: {who} must be in {room_id} or adjacent to it to lock/unlock")

/-- `_reset_turn_flags`: sets the actor's `cooked_this_turn` flag to `False`.
Defined in `World/engine.py` but never called by any other function there or
by the dispatch pipeline. -/
def reset_turn_flags (s : WorldState) (actor_id : String) : WorldState :=
  let actor_flags :=
    aset ((alookup s.actor_flags actor_id).getD []) "cooked_this_turn"
      (AVal.vBool false)
  { s with actor_flags := aset s.actor_flags actor_id actor_flags }

/-- `advance_turn`: with empty `turn_order` just increments `turn`;
otherwise steps `turn_index` and increments `turn` only on wrap-around. -/
def advance_turn (s : WorldState) : WorldState :=
  if s.turn_order = [] then { s with turn := s.turn + 1 }
  else
    let next_idx := s.turn_index + 1
    if next_idx ≥ (s.turn_order.length : Int) then
      { s with turn := s.turn + 1, turn_index := 0 }
    else
      { s with turn_index := next_idx }

/-- `apply_move`. -/
def apply_move (house : House) (s : WorldState) (who dst : String) :
    WorldState × ToolResult :=
  match alookup s.locations who with
  | none => (s, ToolResult.fail s!"Unknown entity: {who}")
  | some src =>
    if (alookup house.rooms dst).isNone then
      (s, ToolResult.fail s!"Unknown room: {dst}")
    else if dst = src then
      (s, ToolResult.fail s!"Invalid move: {src} -> {dst} is not allowed.")
    else if !((alookup house.edges src).getD []).contains dst then
      (s, ToolResult.fail s!"Blocked: {src} -> {dst}")
    else if !(can_enter_room s who dst) then
      (s, ToolResult.fail s!"Locked: cannot enter {dst}")
    else
      let s1 := { s with locations := aset s.locations who dst }
      let (s2, ev) := emit s1 who "move"
        [("src", AVal.vStr src), ("dst", AVal.vStr dst)] true
        s!"moved {src} -> {dst}"
      (s2, { ok := true, message := s!"OK: {who} moved to {dst}.",
             events := [ev] })

/-- `end_turn`: emits and advances; round increases only on wrap. -/
def end_turn (s : WorldState) (who : String) : WorldState × ToolResult :=
  let (s1, ev) := emit s who "end_turn" [] true "ended turn"
  let s2 := advance_turn s1
  (s2, { ok := true, message := s!"Turn advanced to {s2.turn}.",
         events := [ev], consume_turn := false })

/-- `skip_turn`: like `end_turn` but logged as an explicit skip. -/
def skip_turn (s : WorldState) (who : String) : WorldState × ToolResult :=
  let (s1, ev) := emit s who "skip" [] true "skipped turn"
  let s2 := advance_turn s1
  (s2, { ok := true, message := s!"Turn advanced to {s2.turn}.",
         events := [ev], consume_turn := false })

/-- `unlock_room`. -/
def unlock_room (house : House) (s : WorldState) (who room_id : String) :
    WorldState × ToolResult :=
  if (alookup s.room_locked room_id).isNone then
    (s, ToolResult.fail s!"No lock state for room: {room_id}")
  else
    let cr := can_toggle_lock house s who room_id
    if !cr.1 then (s, ToolResult.fail cr.2)
    else if !((alookup s.room_locked room_id).getD false) then
      (s, ToolResult.fail s!"Already unlocked: {room_id}")
    else
      let s1 := { s with room_locked := aset s.room_locked room_id false }
      let (s2, ev) := emit s1 who "unlock_room"
        [("room_id", AVal.vStr room_id)] true s!"unlocked {room_id}"
      (s2, { ok := true, message := s!"OK: {who} unlocked {room_id}.",
             events := [ev] })

/-- `lock_room`. -/
def lock_room (house : House) (s : WorldState) (who room_id : String) :
    WorldState × ToolResult :=
  if (alookup s.room_locked room_id).isNone then
    (s, ToolResult.fail s!"No lock state for room: {room_id}")
  else
    let cr := can_toggle_lock house s who room_id
    if !cr.1 then (s, ToolResult.fail cr.2)
    else if (alookup s.room_locked room_id).getD false then
      (s, ToolResult.fail s!"Already locked: {room_id}")
    else
      let s1 := { s with room_locked := aset s.room_locked room_id true }
      let (s2, ev) := emit s1 who "lock_room"
        [("room_id", AVal.vStr room_id)] true s!"locked {room_id}"
      (s2, { ok := true, message := s!"OK: {who} locked {room_id}.",
             events := [ev] })

/-! ## `World/interaction_engine.py` -/

/-- The per-entry transform of `auto_decline_pending_talks`: a pending talk
directed at `target` becomes `declined`. -/
def decline_hit (target : String) (i : Interaction) : Bool :=
  i.kind = "talk" && i.status = "pending" && i.target = target

/-- The declined copy written back by `auto_decline_pending_talks`. -/
def declined_copy (target reason : String) (turn : Int) (i : Interaction) :
    Interaction :=
  { i with
    status := "declined", ended_by := some target,
    ended_reason := some reason, ended_turn := some turn }

/-- The `talk_decline` event emitted for one auto-declined interaction. -/
def decline_event (target reason : String) (turn : Int) (iid : String) : Event :=
  { turn := turn, actor := target, type := "talk_decline",
    args := [("interaction_id", AVal.vStr iid), ("reason", AVal.vStr reason),
             ("auto", AVal.vBool true)],
    ok := true, message := s!"auto-declined ({reason})" }

/-- `auto_decline_pending_talks`: declines every pending talk directed at
`target`, emitting one event per declined interaction.  The source loops
over the (insertion-ordered) dict, rewriting each matching entry in place
and emitting as it goes with the turn unchanged throughout; that loop is
rendered here as one `map` over the entries plus the event list of the
matching entries in the same order. -/
def auto_decline_pending_talks (s : WorldState) (target : String)
    (reason : String) : WorldState × List Event :=
  let hit := decline_hit target
  let new_inters := s.interactions.map
    (fun p => if hit p.2 then (p.1, declined_copy target reason s.turn p.2) else p)
  let evs := (s.interactions.filter (fun p => hit p.2)).map
    (fun p => decline_event target reason s.turn p.1)
  ({ s with interactions := new_inters, events := s.events ++ evs }, evs)

/-- `_new_interaction_id`: allocates `i{n}` and bumps the counter. -/
def new_interaction_id (s : WorldState) : WorldState × String :=
  let n := s.next_interaction_id
  ({ s with next_interaction_id := n + 1 }, "i" ++ toString n)

/-- `_close_interaction`. -/
def close_interaction (s : WorldState) (interaction_id : String)
    (ended_by reason : String) : WorldState :=
  match alookup s.interactions interaction_id with
  | none => s
  | some inter =>
    let closed := { inter with
      status := "closed", ended_by := some ended_by,
      ended_reason := some reason, ended_turn := some s.turn }
    { s with interactions := aset s.interactions interaction_id closed }

/-- `talk_request`. -/
def talk_request (s : WorldState) (initiator target room_id : String) :
    WorldState × ToolResult :=
  if initiator = target then
    (s, ToolResult.fail "Denied: you cannot request to talk with yourself.")
  else if alookup s.locations initiator ≠ some room_id
      ∨ alookup s.locations target ≠ some room_id then
    (s, ToolResult.fail "Talk request requires both actors to be in the same room.")
  else if s.interactions.any (fun p =>
      p.2.kind = "talk" && p.2.status = "active"
      && (initiator = p.2.initiator || initiator = p.2.target
          || target = p.2.initiator || target = p.2.target)) then
    (s, ToolResult.fail "Denied: someone is already in an active conversation.")
  else if s.interactions.any (fun p =>
      p.2.kind = "talk" && p.2.status = "pending"
      && p.2.initiator = initiator && p.2.target = target) then
    (s, ToolResult.fail s!"Denied: you already have a pending talk request to {target}.")
  else
    let (s1, iid) := new_interaction_id s
    let inter : Interaction :=
      { id := iid, kind := "talk", initiator := initiator, target := target,
        room_id := room_id, status := "pending", created_turn := s1.turn,
        messages := [], max_exchanges := 3 }
    let s2 := { s1 with interactions := aset s1.interactions iid inter }
    let (s3, ev) := emit s2 initiator "talk_request"
      [("target", AVal.vStr target), ("room_id", AVal.vStr room_id),
       ("interaction_id", AVal.vStr iid)] true "talk requested"
    (s3, { ok := true,
           message := s!"OK: {initiator} requested to talk with {target}.",
           events := [ev], data := [("interaction_id", AVal.vStr iid)] })

/-- `talk_accept`. -/
def talk_accept (s : WorldState) (who interaction_id : String) :
    WorldState × ToolResult :=
  match alookup s.interactions interaction_id with
  | none => (s, ToolResult.fail s!"Unknown interaction: {interaction_id}")
  | some inter =>
    if inter.kind ≠ "talk" then (s, ToolResult.fail "Not a talk interaction.")
    else if inter.status ≠ "pending" then
      (s, ToolResult.fail s!"Invalid state: {inter.status}")
    else if who ≠ inter.target then
      (s, ToolResult.fail s!"Denied: only {inter.target} can accept this talk request.")
    else if alookup s.locations inter.initiator ≠ some inter.room_id
        ∨ alookup s.locations inter.target ≠ some inter.room_id then
      (s, ToolResult.fail "Talk no longer possible: not in the same room.")
    else
      let activated := { inter with status := "active", started_turn := some s.turn }
      let s1 := { s with interactions := aset s.interactions interaction_id activated }
      let (s2, ev) := emit s1 who "talk_start"
        [("interaction_id", AVal.vStr interaction_id)] true "talk started"
      (s2, { ok := true,
             message := s!"OK: talk started between {inter.initiator} and {inter.target}.",
             events := [ev], consume_turn := false })

/-- `talk_decline`. -/
def talk_decline (s : WorldState) (who interaction_id : String) :
    WorldState × ToolResult :=
  match alookup s.interactions interaction_id with
  | none => (s, ToolResult.fail s!"Unknown interaction: {interaction_id}")
  | some inter =>
    if inter.kind ≠ "talk" then (s, ToolResult.fail "Not a talk interaction.")
    else if inter.status ≠ "pending" then
      (s, ToolResult.fail s!"Invalid state: {inter.status}")
    else if who ≠ inter.target then
      (s, ToolResult.fail s!"Denied: only {inter.target} can decline this talk request.")
    else
      let declined := { inter with status := "declined" }
      let s1 := { s with interactions := aset s.interactions interaction_id declined }
      let (s2, ev) := emit s1 who "talk_decline"
        [("interaction_id", AVal.vStr interaction_id)] true "talk declined"
      (s2, { ok := true, message := s!"OK: {who} declined the talk request.",
             events := [ev], consume_turn := false })

/-- `talk_end`. -/
def talk_end (s : WorldState) (who interaction_id : String) :
    WorldState × ToolResult :=
  match alookup s.interactions interaction_id with
  | none => (s, ToolResult.fail s!"Unknown interaction: {interaction_id}")
  | some inter =>
    if inter.kind ≠ "talk" then (s, ToolResult.fail "Not a talk interaction.")
    else if inter.status ≠ "active" then
      (s, ToolResult.fail s!"Invalid state: {inter.status}")
    else if who ≠ inter.initiator ∧ who ≠ inter.target then
      (s, ToolResult.fail "Denied: you are not a participant in this talk.")
    else
      let s1 := close_interaction s interaction_id who "ended_by_actor"
      let (s2, ev) := emit s1 who "talk_end"
        [("interaction_id", AVal.vStr interaction_id),
         ("reason", AVal.vStr "ended_by_actor")] true "talk ended"
      (s2, { ok := true, message := s!"OK: talk ended by {who}.",
             events := [ev], consume_turn := false })

/-- `talk_say`. -/
def talk_say (s : WorldState) (who interaction_id text : String) :
    WorldState × ToolResult :=
  match alookup s.interactions interaction_id with
  | none => (s, ToolResult.fail s!"Unknown interaction: {interaction_id}")
  | some inter =>
    if inter.kind ≠ "talk" then (s, ToolResult.fail "Not a talk interaction.")
    else if inter.status ≠ "active" then
      (s, ToolResult.fail s!"Invalid state: {inter.status}")
    else if who ≠ inter.initiator ∧ who ≠ inter.target then
      (s, ToolResult.fail "Denied: you are not a participant in this talk.")
    else if alookup s.locations inter.initiator ≠ some inter.room_id
        ∨ alookup s.locations inter.target ≠ some inter.room_id then
      let s1 := close_interaction s interaction_id who "separated"
      let (s2, ev_end) := emit s1 who "talk_end"
        [("interaction_id", AVal.vStr interaction_id),
         ("reason", AVal.vStr "separated")] true "talk ended (separated)"
      (s2, { ok := true,
             message := "Talk ended: participants are no longer in the same room.",
             events := [ev_end], consume_turn := false })
    else
      let msg : Message := { speaker := who, text := text, turn := s.turn }
      let updated := { inter with messages := inter.messages ++ [msg] }
      let s1 := { s with interactions := aset s.interactions interaction_id updated }
      let (s2, ev_say) := emit s1 who "talk_say"
        [("interaction_id", AVal.vStr interaction_id), ("text", AVal.vStr text)]
        true "said something"
      if updated.utterances ≥ updated.max_utterances then
        let s3 := close_interaction s2 interaction_id who "max_exchanges"
        let (s4, ev_end) := emit s3 who "talk_end"
          [("interaction_id", AVal.vStr interaction_id),
           ("reason", AVal.vStr "max_exchanges")] true "talk ended (max exchanges)"
        (s4, { ok := true,
               message := s!"{who}: {text}  [talk ended: max exchanges]",
               events := [ev_say, ev_end], consume_turn := false })
      else
        (s2, { ok := true, message := s!"{who}: {text}",
               events := [ev_say], consume_turn := false })

/-- The per-entry condition of the spec-modelled
`auto_reject_pending_task_requests`: a pending task request directed at
`target`. -/
def reject_hit (target : String) (i : Interaction) : Bool :=
  i.kind = "task_request" && i.status = "pending" && i.target = target

/-- Modelled from the spec: `auto_reject_pending_task_requests` is imported
from `World.interaction_engine` by `World/Tools/registry.py` but its
definition is not present under `src/`.  Spec §4.2 (decay step): it must
"auto-reject every `task_request` pending against this actor, each emitting
its own event", and §4.4 says a rejected task request is closed as
`declined`.  Modelled exactly like `auto_decline_pending_talks` with kind
`task_request` and event type `task_reject`. -/
def auto_reject_pending_task_requests (s : WorldState) (target : String)
    (reason : String) : WorldState × List Event :=
  let hit := reject_hit target
  let new_inters := s.interactions.map
    (fun p => if hit p.2 then (p.1, declined_copy target reason s.turn p.2) else p)
  let evs := (s.interactions.filter (fun p => hit p.2)).map
    (fun p => { turn := s.turn, actor := target, type := "task_reject",
                args := [("interaction_id", AVal.vStr p.1),
                         ("reason", AVal.vStr reason),
                         ("auto", AVal.vBool true)],
                ok := true, message := s!"auto-rejected ({reason})" : Event })
  ({ s with interactions := new_inters, events := s.events ++ evs }, evs)

/-- Modelled from the spec: `task_request` is imported from
`World.interaction_engine` by `World/Tools/tasks_requests.py` but its
definition is not present under `src/`.  Spec §4.4:
"`task_request(initiator, target, room, tool, tool_args)` creates a
`pending` interaction carrying `{tool, args}` as payload"; the id is
allocated from the same monotonic counter as talk interactions (§3) and an
event is emitted for the state change (§2, event log).  Turn consumption is
handled by the dispatch pipeline through the returned result
(`consume_turn` true). -/
def task_request (s : WorldState) (initiator target room_id : String)
    (tool_name : String) (tool_args : List (String × String)) :
    WorldState × ToolResult :=
  let (s1, iid) := new_interaction_id s
  let inter : Interaction :=
    { id := iid, kind := "task_request", initiator := initiator,
      target := target, room_id := room_id, status := "pending",
      created_turn := s1.turn,
      data := [("tool", AVal.vStr tool_name), ("args", AVal.vDict tool_args)] }
  let s2 := { s1 with interactions := aset s1.interactions iid inter }
  let (s3, ev) := emit s2 initiator "task_request"
    [("target", AVal.vStr target), ("room_id", AVal.vStr room_id),
     ("interaction_id", AVal.vStr iid), ("tool", AVal.vStr tool_name)]
    true "task requested"
  (s3, { ok := true, message := s!"OK: {initiator} requested {target}: {tool_name}.",
         events := [ev], data := [("interaction_id", AVal.vStr iid)] })

/-! ## `World/Tools/tasks_requests.py` helpers -/

/-- `_get_counter` (the trailing `or 0` only matters for falsy non-int
values, which never occur: counters are ints). -/
def get_counter (s : WorldState) (actor key : String) (default : Int) : Int :=
  (alookup ((alookup s.actor_counters actor).getD []) key).getD default

/-- `_set_counter`. -/
def set_counter (s : WorldState) (actor key : String) (value : Int) :
    WorldState :=
  let actor_c := aset ((alookup s.actor_counters actor).getD []) key value
  { s with actor_counters := aset s.actor_counters actor actor_c }

/-- `_inc_counter`: add `delta`, clamped at the optional floor and ceiling. -/
def inc_counter (s : WorldState) (actor key : String) (delta default : Int)
    (floor ceil : Option Int) : WorldState :=
  let cur := get_counter s actor key default
  let n1 := cur + delta
  let n2 := match floor with | some f => max f n1 | none => n1
  let n3 := match ceil with | some c => min c n2 | none => n2
  set_counter s actor key n3

/-- `_get_flag`. -/
def get_flag (s : WorldState) (actor key : String) : Option AVal :=
  alookup ((alookup s.actor_flags actor).getD []) key

/-- `_set_flag`. -/
def set_flag (s : WorldState) (actor key : String) (value : AVal) : WorldState :=
  let actor_f := aset ((alookup s.actor_flags actor).getD []) key value
  { s with actor_flags := aset s.actor_flags actor actor_f }

/-- `CookTool.FOODS`. -/
def cook_foods : List String := ["egg", "bacon", "hotdog"]

/-- `_ALLOWED_REQUEST_TOOLS`. -/
def allowed_request_tools : List String :=
  ["clean_living_room", "wash_dishes", "cook", "move_to"]

/-! ## `World/Tools/base.py` and the tool protocol

`ActionContext` is `World/Tools/base.py`'s frozen dataclass; a `Tool` is
anything exposing `can_run` and `run` (the `spec`/`visible`/`choices`
metadata only feeds `list_specs`, which no claim concerns, and is elided).
Tool argument maps are `List (String × AVal)`. -/

structure ActionContext where
  house : House
  state : WorldState
  actor : String
deriving DecidableEq, Repr

structure Tool where
  name : String
  can_run : ActionContext → List (String × AVal) → Bool × String
  run : ActionContext → List (String × AVal) → WorldState × ToolResult

/-- Reads a string-valued tool argument (`args[key]` when the value is a
string). -/
def arg_str (args : List (String × AVal)) (key : String) : Option String :=
  match alookup args key with
  | some (AVal.vStr v) => some v
  | _ => none

/-! ## `World/Tools/movement.py` `MoveToTool` -/

/-- `MoveToTool.can_run`: `dst` must be present and a string. -/
def move_to_can_run (_ctx : ActionContext) (args : List (String × AVal)) :
    Bool × String :=
  match alookup args "dst" with
  | none => (false, "move_to requires args: \x7bdst\x7d")
  | some (AVal.vStr _) => (true, "OK")
  | some _ => (false, "move_to.dst must be a string")

/-- `MoveToTool.run`: the living-room hub rule, then `apply_move`.
Python's `if src and src != "living_room" and dst != "living_room"` guards
on `src` being truthy (present and non-empty). `args["dst"]` is a string
here because `can_run` ran first. -/
def move_to_run (ctx : ActionContext) (args : List (String × AVal)) :
    WorldState × ToolResult :=
  let dst := (arg_str args "dst").getD ""
  match alookup ctx.state.locations ctx.actor with
  | some src =>
    if src ≠ "" ∧ src ≠ "living_room" ∧ dst ≠ "living_room" then
      (ctx.state,
       ToolResult.fail "Denied: from non-living rooms you must move to living_room first.")
    else apply_move ctx.house ctx.state ctx.actor dst
  | none => apply_move ctx.house ctx.state ctx.actor dst

def move_to_tool : Tool :=
  { name := "move_to", can_run := move_to_can_run, run := move_to_run }

/-! ## `World/Tools/social.py` talk tools -/

/-- `TalkRequestTool.can_run`. -/
def talk_request_can_run (ctx : ActionContext) (args : List (String × AVal)) :
    Bool × String :=
  match alookup args "target" with
  | some (AVal.vStr t) =>
    if t = ctx.actor then
      (false, "Denied: you cannot request to talk with yourself.")
    else (true, "OK")
  | _ => (false, "talk_request requires args: \x7btarget\x7d")

/-- `TalkRequestTool.run` (`if not room_id` also catches an empty string). -/
def talk_request_run (ctx : ActionContext) (args : List (String × AVal)) :
    WorldState × ToolResult :=
  let target := (arg_str args "target").getD ""
  match alookup ctx.state.locations ctx.actor with
  | none => (ctx.state, ToolResult.fail "Unknown location.")
  | some room_id =>
    if room_id = "" then (ctx.state, ToolResult.fail "Unknown location.")
    else talk_request ctx.state ctx.actor target room_id

def talk_request_tool : Tool :=
  { name := "talk_request", can_run := talk_request_can_run,
    run := talk_request_run }

/-- `TalkAcceptTool.can_run`. -/
def talk_accept_can_run (_ctx : ActionContext) (args : List (String × AVal)) :
    Bool × String :=
  match alookup args "interaction_id" with
  | some (AVal.vStr _) => (true, "OK")
  | _ => (false, "talk_accept requires args: \x7binteraction_id\x7d")

def talk_accept_run (ctx : ActionContext) (args : List (String × AVal)) :
    WorldState × ToolResult :=
  talk_accept ctx.state ctx.actor ((arg_str args "interaction_id").getD "")

def talk_accept_tool : Tool :=
  { name := "talk_accept", can_run := talk_accept_can_run,
    run := talk_accept_run }

/-- `TalkDeclineTool.can_run`. -/
def talk_decline_can_run (_ctx : ActionContext) (args : List (String × AVal)) :
    Bool × String :=
  match alookup args "interaction_id" with
  | some (AVal.vStr _) => (true, "OK")
  | _ => (false, "talk_decline requires args: \x7binteraction_id\x7d")

def talk_decline_run (ctx : ActionContext) (args : List (String × AVal)) :
    WorldState × ToolResult :=
  talk_decline ctx.state ctx.actor ((arg_str args "interaction_id").getD "")

def talk_decline_tool : Tool :=
  { name := "talk_decline", can_run := talk_decline_can_run,
    run := talk_decline_run }

/-- `TalkSayTool.can_run`: needs a string `interaction_id` and a non-blank
string `text`. -/
def talk_say_can_run (_ctx : ActionContext) (args : List (String × AVal)) :
    Bool × String :=
  match alookup args "interaction_id" with
  | some (AVal.vStr _) =>
    match alookup args "text" with
    | some (AVal.vStr t) =>
      if t.trim = "" then (false, "talk_say.text cannot be empty")
      else (true, "OK")
    | _ => (false, "talk_say.text must be a string")
  | _ => (false, "talk_say requires args: \x7binteraction_id, text\x7d")

def talk_say_run (ctx : ActionContext) (args : List (String × AVal)) :
    WorldState × ToolResult :=
  talk_say ctx.state ctx.actor ((arg_str args "interaction_id").getD "")
    ((arg_str args "text").getD "")

def talk_say_tool : Tool :=
  { name := "talk_say", can_run := talk_say_can_run, run := talk_say_run }

/-- `TalkEndTool.can_run`. -/
def talk_end_can_run (_ctx : ActionContext) (args : List (String × AVal)) :
    Bool × String :=
  match alookup args "interaction_id" with
  | some (AVal.vStr _) => (true, "OK")
  | _ => (false, "talk_end requires args: \x7binteraction_id\x7d")

def talk_end_run (ctx : ActionContext) (args : List (String × AVal)) :
    WorldState × ToolResult :=
  talk_end ctx.state ctx.actor ((arg_str args "interaction_id").getD "")

def talk_end_tool : Tool :=
  { name := "talk_end", can_run := talk_end_can_run, run := talk_end_run }

/-! ## `World/Tools/tasks_requests.py` `RequestAnnaTool` -/

/-- `RequestAnnaTool.can_run`. -/
def request_anna_can_run (ctx : ActionContext) (args : List (String × AVal)) :
    Bool × String :=
  if ctx.actor ≠ "kevin" then (false, "Denied: only Kevin can request tasks.")
  else if get_counter ctx.state "kevin" "requests_left" 0 ≤ 0 then
    (false, "Denied: Kevin has no requests left.")
  else
    match alookup args "tool" with
    | some (AVal.vStr tool) =>
      if !allowed_request_tools.contains tool then
        (false, "Denied: tool not requestable. Allowed: ['clean_living_room', 'cook', 'move_to', 'wash_dishes']")
      else
        -- tool_args = args.get("args", {}); a None value is replaced by {}
        let targs? : Option (List (String × String)) :=
          match alookup args "args" with
          | none => some []
          | some AVal.vNone => some []
          | some (AVal.vDict m) => some m
          | some _ => none
        match targs? with
        | none => (false, "request_anna.args must be a dict if provided.")
        | some tool_args =>
          if tool = "clean_living_room"
              ∧ ctx.state.completed_tasks.contains "clean_living_room" then
            (false, "Denied: task already completed.")
          else if tool = "wash_dishes"
              ∧ ctx.state.completed_tasks.contains "wash_dishes" then
            (false, "Denied: task already completed.")
          else if tool = "cook" then
            match alookup tool_args "food" with
            | some food =>
              if !cook_foods.contains food then
                (false, "request_anna cook requires args: \x7bfood: egg|bacon|hotdog\x7d")
              else if ctx.state.completed_tasks.contains ("cook:" ++ food) then
                (false, s!"Denied: already cooked {food}.")
              else (true, "OK")
            | none =>
              (false, "request_anna cook requires args: \x7bfood: egg|bacon|hotdog\x7d")
          else if tool = "move_to" then
            match alookup tool_args "dst" with
            | some dst =>
              if dst = "" then
                (false, "request_anna move_to requires args: \x7bdst\x7d")
              else (true, "OK")
            | none => (false, "request_anna move_to requires args: \x7bdst\x7d")
          else (true, "OK")
    | _ =>
      (false, "Denied: tool not requestable. Allowed: ['clean_living_room', 'cook', 'move_to', 'wash_dishes']")

/-- The `tool_args = dict(args.get("args", {}) or {})` normalisation used by
`RequestAnnaTool.run`. -/
def request_args_payload (args : List (String × AVal)) :
    List (String × String) :=
  match alookup args "args" with
  | some (AVal.vDict m) => m
  | _ => []

/-- `RequestAnnaTool.run`: decrements `requests_left` (floored at 0), then
records the request through `task_request`.  The final
`replace(state, actor_counters=...)` in the source is a stated no-op.
`locations.get("kevin") or "living_room"` falls back on a missing or empty
location. -/
def request_anna_run (ctx : ActionContext) (args : List (String × AVal)) :
    WorldState × ToolResult :=
  let tool := (arg_str args "tool").getD ""
  let tool_args := request_args_payload args
  let s := inc_counter ctx.state "kevin" "requests_left" (-1) 0 (some 0) none
  let room_id :=
    match alookup ctx.state.locations "kevin" with
    | some r => if r = "" then "living_room" else r
    | none => "living_room"
  let pr := task_request s "kevin" "anna" room_id tool tool_args
  let c := get_counter pr.1 "kevin" "requests_left" 0
  (pr.1, { ok := pr.2.ok, message := pr.2.message ++ s!" (requests left: {c})",
           events := pr.2.events, consume_turn := true })

def request_anna_tool : Tool :=
  { name := "request_anna", can_run := request_anna_can_run,
    run := request_anna_run }

/-! ## `World/Tools/locks.py` `AnnaUnlockRoomTool` (tool name `unlock_room`) -/

/-- `AnnaUnlockRoomTool.can_run`: Anna only, from the living room, with a
string `room_id`; neither ownership nor adjacency is checked. -/
def anna_unlock_room_can_run (ctx : ActionContext)
    (args : List (String × AVal)) : Bool × String :=
  if ctx.actor ≠ "anna" then
    (false, "Denied: only Anna can use unlock_room.")
  else if alookup ctx.state.locations ctx.actor ≠ some "living_room" then
    (false, "Denied: Anna can only unlock rooms from the living_room.")
  else
    match alookup args "room_id" with
    | some (AVal.vStr _) => (true, "OK")
    | _ => (false, "unlock_room requires args: \x7broom_id\x7d")

/-- `AnnaUnlockRoomTool.run`. -/
def anna_unlock_room_run (ctx : ActionContext) (args : List (String × AVal)) :
    WorldState × ToolResult :=
  let room_id := (arg_str args "room_id").getD ""
  match alookup ctx.state.room_locked room_id with
  | none => (ctx.state, ToolResult.fail s!"Unknown room: {room_id}")
  | some l =>
    if !l then (ctx.state, ToolResult.fail s!"Already unlocked: {room_id}")
    else
      let s1 := { ctx.state with
                  room_locked := aset ctx.state.room_locked room_id false }
      let (s2, ev) := emit s1 ctx.actor "unlock_room"
        [("room_id", AVal.vStr room_id)] true "unlocked"
      (s2, { ok := true, message := s!"Unlocked {room_id}.", events := [ev] })

def anna_unlock_room_tool : Tool :=
  { name := "unlock_room", can_run := anna_unlock_room_can_run,
    run := anna_unlock_room_run }

/-! ## `World/Tools/registry.py` `ToolRegistry.invoke` -/

/-- The tool names exempt from the decay step. -/
def decay_exempt : List String :=
  ["talk_accept", "talk_decline", "task_accept", "task_reject"]

/-- The two decay calls performed by `ToolRegistry.invoke` before a
non-exempt tool body runs: auto-decline pending talks against the actor,
then auto-reject pending task requests against the actor. -/
def decay_state (actor : String) (s : WorldState) : WorldState :=
  let s1 := (auto_decline_pending_talks s actor "decay").1
  (auto_reject_pending_task_requests s1 actor "decay").1

/-- `ToolRegistry.invoke`: lookup, `can_run`, decay step, tool body, then
centralized turn consumption. -/
def invoke (tools : List (String × Tool)) (tool_name : String)
    (ctx : ActionContext) (args : List (String × AVal)) :
    ActionContext × ToolResult :=
  match alookup tools tool_name with
  | none => (ctx, ToolResult.fail s!"Unknown tool: {tool_name}")
  | some tool =>
    let cr := tool.can_run ctx args
    if !cr.1 then (ctx, ToolResult.fail cr.2)
    else
      let ctx1 :=
        if decay_exempt.contains tool_name then ctx
        else { house := ctx.house, state := decay_state ctx.actor ctx.state,
               actor := ctx.actor }
      let pr := tool.run ctx1 args
      let s2 := if pr.2.ok && pr.2.consume_turn then advance_turn pr.1 else pr.1
      ({ house := ctx1.house, state := s2, actor := ctx1.actor }, pr.2)

/-- The registry restricted to the five public talk operations, the
reachability surface named by the talk-exclusivity claim. -/
def talk_registry : List (String × Tool) :=
  [("talk_request", talk_request_tool), ("talk_accept", talk_accept_tool),
   ("talk_decline", talk_decline_tool), ("talk_say", talk_say_tool),
   ("talk_end", talk_end_tool)]

/-! ## Derived definitions used by the claims -/

/-- A talk interaction that is still live (pending or active). -/
def talk_nonterminal (i : Interaction) : Bool :=
  i.kind = "talk" && (i.status = "pending" || i.status = "active")

/-- The talk-exclusivity invariant on an interaction table: every live talk
is between the two actors of the initial roster, and at most one talk is
live at a time. -/
def InteractionsInv (l : List (String × Interaction)) : Prop :=
  (∀ iid i, alookup l iid = some i → talk_nonterminal i = true →
    (i.initiator = "kevin" ∨ i.initiator = "anna")
    ∧ (i.target = "kevin" ∨ i.target = "anna")
    ∧ i.initiator ≠ i.target)
  ∧ (∀ iid1 i1 iid2 i2, alookup l iid1 = some i1 → alookup l iid2 = some i2 →
      talk_nonterminal i1 = true → talk_nonterminal i2 = true → iid1 = iid2)

/-- The full reachability invariant: the actor roster never changes and the
interaction table satisfies talk exclusivity. -/
def TalkInv (s : WorldState) : Prop :=
  s.locations = make_initial_state.locations ∧ InteractionsInv s.interactions

/-- No pending talk is directed at `a` (the situation right after the decay
step ran for `a`). -/
def no_pending_talk_for (a : String) (s : WorldState) : Prop :=
  ∀ iid i, alookup s.interactions iid = some i → i.kind = "talk" →
    i.status = "pending" → i.target ≠ a

/-- States reachable from `make_initial_state` through the dispatch
pipeline restricted to the five public talk operations. -/
inductive ReachableTalk : WorldState → Prop where
  | init : ReachableTalk make_initial_state
  | step (s : WorldState) (house : House) (actor tool_name : String)
      (args : List (String × AVal)) : ReachableTalk s →
      ReachableTalk ((invoke talk_registry tool_name ⟨house, s, actor⟩ args).1.state)

/-- The operations exposed by `World/engine.py` and
`World/interaction_engine.py` that return a `(state, result)` pair. -/
inductive EngineOp : Type where
  | move (who dst : String)
  | lockR (who room_id : String)
  | unlockR (who room_id : String)
  | endT (who : String)
  | skipT (who : String)
  | treq (initiator target room_id : String)
  | tacc (who interaction_id : String)
  | tdecl (who interaction_id : String)
  | tendo (who interaction_id : String)
  | tsay (who interaction_id text : String)

/-- Runs one engine operation. -/
def engine_step (house : House) (s : WorldState) : EngineOp → WorldState × ToolResult
  | .move who dst => apply_move house s who dst
  | .lockR who r => lock_room house s who r
  | .unlockR who r => unlock_room house s who r
  | .endT who => end_turn s who
  | .skipT who => skip_turn s who
  | .treq a b r => talk_request s a b r
  | .tacc w i => talk_accept s w i
  | .tdecl w i => talk_decline s w i
  | .tendo w i => talk_end s w i
  | .tsay w i t => talk_say s w i t

/-- The composite rewrite that `decay_state` applies to one interaction
table entry: the talk pass, then the task-request pass. -/
def decay_transform (a : String) (turn : Int) (i : Interaction) : Interaction :=
  let i1 := if decline_hit a i then declined_copy a "decay" turn i else i
  if reject_hit a i1 then declined_copy a "decay" turn i1 else i1

/-! ## Concrete fixtures used by witnesses and counterexamples -/

/-- A minimal house: two mutually adjacent rooms, nothing else. -/
def two_room_house : House :=
  ⟨[("living_room", ⟨"living_room", "Living Room", "", []⟩),
    ("kitchen", ⟨"kitchen", "Kitchen", "", []⟩)],
   [("living_room", ["kitchen"]), ("kitchen", ["living_room"])]⟩

/-- An empty house (the talk operations never consult the house). -/
def empty_house : House := ⟨[], []⟩

/-- A pending talk request from Anna to Kevin. -/
def pending_talk_i1 : Interaction :=
  { id := "i1", kind := "talk", initiator := "anna", target := "kevin",
    room_id := "living_room", status := "pending", created_turn := 0 }

/-- A pending task request from Anna to Kevin (an arbitrary well-formed
entry; the engine only ever creates them Kevin-to-Anna, but decay is
target-directed). -/
def pending_task_i2 : Interaction :=
  { id := "i2", kind := "task_request", initiator := "anna", target := "kevin",
    room_id := "living_room", status := "pending", created_turn := 0,
    data := [("tool", AVal.vStr "wash_dishes"), ("args", AVal.vDict [])] }

/-- Initial state plus one pending talk against Kevin. -/
def state_pending_talk : WorldState :=
  { make_initial_state with interactions := [("i1", pending_talk_i1)],
                            next_interaction_id := 2 }

/-- Initial state plus one pending talk and one pending task request
against Kevin. -/
def state_pending_both : WorldState :=
  { make_initial_state with
    interactions := [("i1", pending_talk_i1), ("i2", pending_task_i2)],
    next_interaction_id := 3 }

/-- An active talk between Kevin and Anna with five recorded utterances
(one short of the six allowed by `max_exchanges = 3`). -/
def talk_five_messages : Interaction :=
  { id := "i1", kind := "talk", initiator := "kevin", target := "anna",
    room_id := "living_room", status := "active", created_turn := 0,
    started_turn := some 0, max_exchanges := 3,
    messages :=
      [⟨"kevin", "m1", 0⟩, ⟨"anna", "m2", 0⟩, ⟨"kevin", "m3", 0⟩,
       ⟨"anna", "m4", 0⟩, ⟨"kevin", "m5", 0⟩] }

/-- Initial state with that five-utterance active talk. -/
def state_talk_five : WorldState :=
  { make_initial_state with interactions := [("i1", talk_five_messages)],
                            next_interaction_id := 2 }

/-- Initial state, except Anna's per-turn flag `cooked_this_turn` is set
(as if she had cooked on her previous turn). -/
def state_anna_cooked : WorldState :=
  { make_initial_state with
    actor_flags :=
      [("kevin", [("cooked_this_turn", AVal.vBool false)]),
       ("anna", [("cooked_this_turn", AVal.vBool true)])] }

/-- The reachable state used to witness talk exclusivity: Kevin requests a
talk with Anna through the dispatch pipeline, then Anna accepts it. -/
def state_active_talk : WorldState :=
  (invoke talk_registry "talk_accept"
    ⟨empty_house,
     (invoke talk_registry "talk_request"
       ⟨empty_house, make_initial_state, "kevin"⟩
       [("target", AVal.vStr "anna")]).1.state,
     "anna"⟩
    [("interaction_id", AVal.vStr "i1")]).1.state

/-- The interaction record stored at `i1` in `state_active_talk`. -/
def active_talk_i1 : Interaction :=
  { id := "i1", kind := "talk", initiator := "kevin", target := "anna",
    room_id := "living_room", status := "active", created_turn := 0,
    started_turn := some 0, max_exchanges := 3 }

/-- Initial state, except Kevin stands in the kitchen. -/
def state_kevin_kitchen : WorldState :=
  { make_initial_state with
    locations := [("kevin", "kitchen"), ("anna", "living_room")] }

/-- Initial state, except Kevin's own room is locked as well. -/
def state_kevin_room_locked : WorldState :=
  { make_initial_state with
    room_locked := [("anna_room", true), ("kevin_room", true)] }

/-! ## Association-list lemmas -/

theorem alookup_aset {α : Type} (l : List (String × α)) (k : String) (v : α)
    (k' : String) :
    alookup (aset l k v) k' = if k = k' then some v else alookup l k' := by
  induction l with
  | nil => simp [aset, alookup]
  | cons p t ih =>
    obtain ⟨k0, v0⟩ := p
    by_cases h0 : k0 = k
    · subst h0
      rw [show aset ((k0, v0) :: t) k0 v = (k0, v) :: t from by simp [aset]]
      by_cases h1 : k0 = k' <;> simp [alookup, h1]
    · rw [show aset ((k0, v0) :: t) k v = (k0, v0) :: aset t k v from by
        simp [aset, h0]]
      by_cases h1 : k0 = k'
      · have hk : ¬ k = k' := fun h => h0 (h1.trans h.symm)
        simp [alookup, h1, hk]
      · simp [alookup, h1, ih]

theorem alookup_aset_self {α : Type} (l : List (String × α)) (k : String)
    (v : α) : alookup (aset l k v) k = some v := by
  simp [alookup_aset]

theorem alookup_mem {α : Type} {l : List (String × α)} {k : String} {v : α}
    (h : alookup l k = some v) : (k, v) ∈ l := by
  induction l with
  | nil => simp [alookup] at h
  | cons p t ih =>
    obtain ⟨k0, v0⟩ := p
    by_cases h0 : k0 = k
    · subst h0
      simp [alookup] at h
      simp [h]
    · simp [alookup, h0] at h
      exact List.mem_cons_of_mem _ (ih h)

theorem alookup_map_hit (l : List (String × Interaction))
    (hit : Interaction → Bool) (g : Interaction → Interaction) (k : String) :
    alookup (l.map (fun p => if hit p.2 then (p.1, g p.2) else p)) k
      = (alookup l k).map (fun i => if hit i then g i else i) := by
  induction l with
  | nil => rfl
  | cons p t ih =>
    obtain ⟨k0, v0⟩ := p
    simp only [List.map_cons]
    by_cases hv : hit v0
    · rw [if_pos hv]
      by_cases hk : k0 = k <;> simp [alookup, hk, hv, ih]
    · rw [if_neg hv]
      by_cases hk : k0 = k <;> simp [alookup, hk, hv, ih]

/-! ## Frame lemmas for `advance_turn` and the decay step -/

theorem advance_turn_interactions (s : WorldState) :
    (advance_turn s).interactions = s.interactions := by
  simp only [advance_turn]; split_ifs <;> rfl

theorem advance_turn_locations (s : WorldState) :
    (advance_turn s).locations = s.locations := by
  simp only [advance_turn]; split_ifs <;> rfl

theorem advance_turn_actor_counters (s : WorldState) :
    (advance_turn s).actor_counters = s.actor_counters := by
  simp only [advance_turn]; split_ifs <;> rfl

theorem advance_turn_actor_flags (s : WorldState) :
    (advance_turn s).actor_flags = s.actor_flags := by
  simp only [advance_turn]; split_ifs <;> rfl

theorem advance_turn_congr (s1 s2 : WorldState) (ht : s1.turn = s2.turn)
    (hi : s1.turn_index = s2.turn_index)
    (ho : s1.turn_order = s2.turn_order) :
    (advance_turn s1).turn = (advance_turn s2).turn
    ∧ (advance_turn s1).turn_index = (advance_turn s2).turn_index := by
  simp only [advance_turn]
  rw [ht, hi, ho]
  split_ifs <;> simp [ht, hi]

theorem decay_state_locations (a : String) (s : WorldState) :
    (decay_state a s).locations = s.locations := rfl

theorem decay_state_actor_counters (a : String) (s : WorldState) :
    (decay_state a s).actor_counters = s.actor_counters := rfl

theorem decay_state_turn (a : String) (s : WorldState) :
    (decay_state a s).turn = s.turn := rfl

theorem decay_state_turn_index (a : String) (s : WorldState) :
    (decay_state a s).turn_index = s.turn_index := rfl

theorem decay_state_turn_order (a : String) (s : WorldState) :
    (decay_state a s).turn_order = s.turn_order := rfl

theorem decay_state_next_interaction_id (a : String) (s : WorldState) :
    (decay_state a s).next_interaction_id = s.next_interaction_id := rfl

/-- Looking up an interaction after the full decay step applies the
composite per-entry rewrite. -/
theorem decay_state_lookup (a : String) (s : WorldState) (iid : String) :
    alookup (decay_state a s).interactions iid
      = (alookup s.interactions iid).map (decay_transform a s.turn) := by
  show alookup
      (((s.interactions.map (fun p =>
          if decline_hit a p.2 then (p.1, declined_copy a "decay" s.turn p.2) else p)).map
        (fun p => if reject_hit a p.2 then (p.1, declined_copy a "decay" s.turn p.2) else p)))
      iid = _
  rw [alookup_map_hit, alookup_map_hit]
  cases alookup s.interactions iid with
  | none => rfl
  | some i => simp [decay_transform]

/-! ## C6: turn rotation -/

theorem advance_turn_iter_eq (s : WorldState) (h : s.turn_order ≠ [])
    (h0 : s.turn_index = 0) :
    ∀ k, k ≤ s.turn_order.length →
      advance_turn^[k] s =
        if k < s.turn_order.length then { s with turn_index := (k : Int) }
        else { s with turn := s.turn + 1, turn_index := 0 } := by
  intro k
  induction k with
  | zero =>
    intro _
    have hp : 0 < s.turn_order.length := List.length_pos.mpr h
    rw [if_pos hp]
    simp only [Function.iterate_zero, id_eq, Nat.cast_zero]
    rw [← h0]
  | succ n ih =>
    intro hk
    have hn : n < s.turn_order.length := by omega
    rw [Function.iterate_succ_apply', ih (by omega), if_pos hn]
    simp only [advance_turn]
    have horder : ({ s with turn_index := (n : Int) } : WorldState).turn_order
        = s.turn_order := rfl
    rw [horder]
    rw [if_neg h]
    by_cases hw : n + 1 = s.turn_order.length
    · rw [if_pos (by omega), if_neg (by omega)]
    · rw [if_neg (by omega), if_pos (by omega)]
      simp [Nat.cast_add]

/-- C6: with a non-empty `turn_order` and `turn_index = 0`, applying
`advance_turn` exactly `len(turn_order)` times returns `turn_index` to 0
and increments `turn` by exactly one, while no earlier application changes
`turn`; with an empty `turn_order`, every single call increments `turn`. -/
theorem advance_turn_cycle_spec (s : WorldState) :
    (s.turn_order ≠ [] → s.turn_index = 0 →
      (advance_turn^[s.turn_order.length] s).turn_index = 0
      ∧ (advance_turn^[s.turn_order.length] s).turn = s.turn + 1
      ∧ ∀ k, k < s.turn_order.length → (advance_turn^[k] s).turn = s.turn)
    ∧ (s.turn_order = [] → (advance_turn s).turn = s.turn + 1) := by
  constructor
  · intro h h0
    refine ⟨?_, ?_, ?_⟩
    · rw [advance_turn_iter_eq s h h0 _ le_rfl, if_neg (lt_irrefl _)]
    · rw [advance_turn_iter_eq s h h0 _ le_rfl, if_neg (lt_irrefl _)]
    · intro k hk
      rw [advance_turn_iter_eq s h h0 k (le_of_lt hk), if_pos hk]
  · intro h
    simp only [advance_turn]
    rw [if_pos h]

/-- Witness for C6 at the initial state (`turn_order = ["kevin", "anna"]`). -/
theorem advance_turn_cycle_spec_witness :
    make_initial_state.turn_order ≠ [] ∧ make_initial_state.turn_index = 0
    ∧ (advance_turn^[2] make_initial_state).turn_index = 0
    ∧ (advance_turn^[2] make_initial_state).turn = make_initial_state.turn + 1
    ∧ (advance_turn^[1] make_initial_state).turn = make_initial_state.turn := by
  have h := (advance_turn_cycle_spec make_initial_state).1 (by decide) rfl
  exact ⟨by decide, rfl, h.1, h.2.1, h.2.2 1 (by decide)⟩

/-! ## C5: move legality -/

/-- C5: when every adjacency-edge endpoint is a known room and the mover
has a recorded location `src`, `apply_move` succeeds iff `dst` is adjacent
to `src`, `dst ≠ src`, and `dst` is not locked (so a locked *source* never
blocks the move); and every failing call returns the input state
unchanged. -/
theorem apply_move_spec (house : House) (s : WorldState) (who dst src : String)
    (hE : ∀ p ∈ house.edges, ∀ r' ∈ p.2, (alookup house.rooms r').isSome)
    (hw : alookup s.locations who = some src) :
    ((apply_move house s who dst).2.ok = true ↔
      (((alookup house.edges src).getD []).contains dst ∧ dst ≠ src
        ∧ (alookup s.room_locked dst).getD false = false))
    ∧ ((apply_move house s who dst).2.ok = false →
        (apply_move house s who dst).1 = s) := by
  have hrooms : (((alookup house.edges src).getD []).contains dst) →
      ¬ (alookup house.rooms dst).isNone := by
    intro hc hnone
    rcases he : alookup house.edges src with _ | ns
    · rw [he] at hc; simp at hc
    · rw [he] at hc
      have hs := hE (src, ns) (alookup_mem he) dst (by simpa using hc)
      rw [Option.isNone_iff_eq_none] at hnone
      rw [hnone] at hs
      simp at hs
  simp only [apply_move, hw]
  by_cases h1 : (alookup house.rooms dst).isNone
  · rw [if_pos h1]
    refine ⟨⟨fun h => by simp [ToolResult.fail] at h, ?_⟩, fun _ => rfl⟩
    rintro ⟨hc, -, -⟩
    exact absurd h1 (hrooms hc)
  · rw [if_neg h1]
    by_cases h2 : dst = src
    · rw [if_pos h2]
      exact ⟨⟨fun h => by simp [ToolResult.fail] at h,
              fun h => absurd h2 h.2.1⟩, fun _ => rfl⟩
    · rw [if_neg h2]
      by_cases hc : ((alookup house.edges src).getD []).contains dst
      · have hcm : dst ∈ (alookup house.edges src).getD [] := by simpa using hc
        rw [if_neg (by simp [hcm])]
        by_cases h4 : is_locked s dst
        · rw [if_pos (by simp [can_enter_room, h4])]
          refine ⟨⟨fun h => by simp [ToolResult.fail] at h, ?_⟩, fun _ => rfl⟩
          rintro ⟨-, -, h⟩
          rw [is_locked, h] at h4
          exact absurd h4 (by simp)
        · rw [if_neg (by simp [can_enter_room, h4])]
          refine ⟨⟨fun _ => ⟨hc, h2, ?_⟩, fun _ => rfl⟩, fun h => ?_⟩
          · rw [is_locked] at h4; simpa using h4
          · exact absurd h (by simp)
      · have hcm : dst ∉ (alookup house.edges src).getD [] := by
          simpa using hc
        rw [if_pos (by simp [hcm])]
        exact ⟨⟨fun h => by simp [ToolResult.fail] at h,
                fun h => absurd h.1 hc⟩, fun _ => rfl⟩

/-- Witness for C5 in the two-room house: `kitchen` is adjacent to
`living_room`, distinct and unlocked, so the move succeeds; and the failing
no-op move `living_room → living_room` leaves the state unchanged. -/
theorem apply_move_spec_witness :
    (∀ p ∈ two_room_house.edges, ∀ r' ∈ p.2,
      (alookup two_room_house.rooms r').isSome)
    ∧ alookup make_initial_state.locations "kevin" = some "living_room"
    ∧ ((apply_move two_room_house make_initial_state "kevin" "kitchen").2.ok = true ↔
        (((alookup two_room_house.edges "living_room").getD []).contains "kitchen"
          ∧ "kitchen" ≠ "living_room"
          ∧ (alookup make_initial_state.room_locked "kitchen").getD false = false))
    ∧ ((apply_move two_room_house make_initial_state "kevin" "living_room").2.ok = false →
        (apply_move two_room_house make_initial_state "kevin" "living_room").1
          = make_initial_state) := by
  refine ⟨by decide, rfl, ?_, ?_⟩
  · exact (apply_move_spec two_room_house make_initial_state "kevin" "kitchen"
      "living_room" (by decide) rfl).1
  · exact (apply_move_spec two_room_house make_initial_state "kevin" "living_room"
      "living_room" (by decide) rfl).2

/-! ## C9: the living-room hub rule in `MoveToTool.run` -/

/-- C9: an actor standing anywhere but the living room can only move to the
living room: any other destination is refused before `apply_move` runs,
with the state returned unchanged; and only a move from the living room or
into the living room reaches `apply_move`. -/
theorem move_to_hub_spec (ctx : ActionContext) (args : List (String × AVal))
    (src dst : String)
    (hsrc : alookup ctx.state.locations ctx.actor = some src)
    (hne : src ≠ "")
    (hdst : alookup args "dst" = some (AVal.vStr dst)) :
    (src ≠ "living_room" → dst ≠ "living_room" →
      (move_to_run ctx args).2.ok = false
      ∧ (move_to_run ctx args).1 = ctx.state)
    ∧ ((src = "living_room" ∨ dst = "living_room") →
      move_to_run ctx args = apply_move ctx.house ctx.state ctx.actor dst) := by
  simp only [move_to_run, arg_str, hdst, hsrc, Option.getD_some]
  constructor
  · intro h1 h2
    rw [if_pos ⟨hne, h1, h2⟩]
    exact ⟨rfl, rfl⟩
  · rintro (h | h)
    · rw [if_neg (by tauto)]
    · rw [if_neg (by tauto)]

/-- Witness for C9: Kevin in the kitchen cannot move to the adjacent,
unlocked, distinct dining room; a move to the living room goes through
`apply_move`. -/
theorem move_to_hub_spec_witness :
    alookup state_kevin_kitchen.locations "kevin" = some "kitchen"
    ∧ ("kitchen" : String) ≠ ""
    ∧ alookup [("dst", AVal.vStr "dining_room")] "dst"
        = some (AVal.vStr "dining_room")
    ∧ ((move_to_run ⟨two_room_house, state_kevin_kitchen, "kevin"⟩
          [("dst", AVal.vStr "dining_room")]).2.ok = false
       ∧ (move_to_run ⟨two_room_house, state_kevin_kitchen, "kevin"⟩
          [("dst", AVal.vStr "dining_room")]).1 = state_kevin_kitchen)
    ∧ move_to_run ⟨two_room_house, state_kevin_kitchen, "kevin"⟩
        [("dst", AVal.vStr "living_room")]
      = apply_move two_room_house state_kevin_kitchen "kevin" "living_room" := by
  refine ⟨rfl, by decide, rfl, ?_, ?_⟩
  · exact (move_to_hub_spec ⟨two_room_house, state_kevin_kitchen, "kevin"⟩
      [("dst", AVal.vStr "dining_room")] "kitchen" "dining_room" rfl (by decide)
      rfl).1 (by decide) (by decide)
  · exact (move_to_hub_spec ⟨two_room_house, state_kevin_kitchen, "kevin"⟩
      [("dst", AVal.vStr "living_room")] "kitchen" "living_room" rfl (by decide)
      rfl).2 (Or.inr rfl)

/-! ## Frame lemmas for `append_events` and `emit` -/

theorem append_events_room_locked (s : WorldState) (evs : List Event) :
    (append_events s evs).room_locked = s.room_locked := by
  unfold append_events; split_ifs <;> rfl

theorem append_events_interactions (s : WorldState) (evs : List Event) :
    (append_events s evs).interactions = s.interactions := by
  unfold append_events; split_ifs <;> rfl

theorem append_events_locations (s : WorldState) (evs : List Event) :
    (append_events s evs).locations = s.locations := by
  unfold append_events; split_ifs <;> rfl

theorem append_events_actor_counters (s : WorldState) (evs : List Event) :
    (append_events s evs).actor_counters = s.actor_counters := by
  unfold append_events; split_ifs <;> rfl

theorem append_events_actor_flags (s : WorldState) (evs : List Event) :
    (append_events s evs).actor_flags = s.actor_flags := by
  unfold append_events; split_ifs <;> rfl

theorem append_events_turn (s : WorldState) (evs : List Event) :
    (append_events s evs).turn = s.turn := by
  unfold append_events; split_ifs <;> rfl

theorem append_events_turn_index (s : WorldState) (evs : List Event) :
    (append_events s evs).turn_index = s.turn_index := by
  unfold append_events; split_ifs <;> rfl

theorem append_events_turn_order (s : WorldState) (evs : List Event) :
    (append_events s evs).turn_order = s.turn_order := by
  unfold append_events; split_ifs <;> rfl

theorem append_events_next_interaction_id (s : WorldState) (evs : List Event) :
    (append_events s evs).next_interaction_id = s.next_interaction_id := by
  unfold append_events; split_ifs <;> rfl

theorem append_events_events (s : WorldState) (evs : List Event) :
    (append_events s evs).events = s.events ++ evs := by
  unfold append_events
  split_ifs with h
  · simp [h]
  · rfl

/-! ## C10: Anna's special `unlock_room` tool -/

/-- C10: with Anna in the living room and `r` recorded as locked, the
`unlock_room` tool's argument check passes and its body succeeds, setting
`room_locked[r] = false` — no ownership or adjacency hypothesis is needed;
by contrast `can_toggle_lock` (the gate of the ordinary `lock`/`unlock`
tools) always fails for a caller who is not the room's owner. -/
theorem anna_unlock_room_spec :
    (∀ (ctx : ActionContext) (args : List (String × AVal)) (r : String),
      ctx.actor = "anna" →
      alookup ctx.state.locations "anna" = some "living_room" →
      alookup args "room_id" = some (AVal.vStr r) →
      alookup ctx.state.room_locked r = some true →
      anna_unlock_room_can_run ctx args = (true, "OK")
      ∧ (anna_unlock_room_run ctx args).2.ok = true
      ∧ alookup (anna_unlock_room_run ctx args).1.room_locked r = some false)
    ∧ (∀ (house : House) (s : WorldState) (who r o : String),
        room_owner s r = some o → who ≠ o →
        (can_toggle_lock house s who r).1 = false) := by
  constructor
  · intro ctx args r ha hl harg hlk
    refine ⟨?_, ?_, ?_⟩
    · simp [anna_unlock_room_can_run, ha, hl, harg]
    · simp only [anna_unlock_room_run, arg_str, harg, Option.getD_some, hlk]
      rw [if_neg (by simp)]
    · simp only [anna_unlock_room_run, arg_str, harg, Option.getD_some, hlk]
      rw [if_neg (by simp)]
      simp only [emit]
      rw [append_events_room_locked]
      exact alookup_aset_self _ _ _
  · intro house s who r o ho hne
    simp only [can_toggle_lock]
    by_cases hr : (alookup house.rooms r).isNone
    · rw [if_pos hr]
    · rw [if_neg hr, ho]
      simp [hne]

/-- Witness for C10: Anna, in the living room of the initial state with
Kevin's room additionally locked, unlocks `kevin_room` — a room she does
not own — while `can_toggle_lock` refuses Kevin on `anna_room`. -/
theorem anna_unlock_room_spec_witness :
    (alookup state_kevin_room_locked.locations "anna" = some "living_room"
    ∧ alookup state_kevin_room_locked.room_locked "kevin_room" = some true
    ∧ room_owner state_kevin_room_locked "kevin_room" = some "kevin"
    ∧ anna_unlock_room_can_run
        ⟨empty_house, state_kevin_room_locked, "anna"⟩
        [("room_id", AVal.vStr "kevin_room")] = (true, "OK")
    ∧ (anna_unlock_room_run ⟨empty_house, state_kevin_room_locked, "anna"⟩
        [("room_id", AVal.vStr "kevin_room")]).2.ok = true
    ∧ alookup (anna_unlock_room_run ⟨empty_house, state_kevin_room_locked, "anna"⟩
        [("room_id", AVal.vStr "kevin_room")]).1.room_locked "kevin_room"
        = some false)
    ∧ (room_owner make_initial_state "anna_room" = some "anna"
    ∧ (can_toggle_lock empty_house make_initial_state "kevin" "anna_room").1
        = false) := by
  have h := anna_unlock_room_spec
  refine ⟨⟨rfl, rfl, by decide, ?_⟩, by decide, ?_⟩
  · exact h.1 ⟨empty_house, state_kevin_room_locked, "anna"⟩
      [("room_id", AVal.vStr "kevin_room")] "kevin_room" rfl rfl rfl rfl
  · exact h.2 empty_house make_initial_state "kevin" "anna_room" "anna"
      (by decide) (by decide)

/-! ## C8: per-turn flags are not reset at turn boundaries -/

/-- C8 (documents the divergence): `_reset_turn_flags` exists in
`World/engine.py` but is never invoked — `advance_turn`, `skip_turn`,
`end_turn` and the dispatch pipeline all leave `actor_flags` untouched.
Starting from the initial state with Anna's `cooked_this_turn` flag set,
Kevin's `skip` (and likewise a dispatched `move_to`, which advances the
turn to Anna) hands the turn to Anna with her flag still `True`; only an
explicit `_reset_turn_flags` call would restore it to `False`. -/
theorem actor_flags_not_reset_at_turn_boundary :
    (skip_turn state_anna_cooked "kevin").1.turn_index = 1
    ∧ get_flag (skip_turn state_anna_cooked "kevin").1 "anna" "cooked_this_turn"
        = some (AVal.vBool true)
    ∧ (advance_turn state_anna_cooked).actor_flags
        = state_anna_cooked.actor_flags
    ∧ (end_turn state_anna_cooked "kevin").1.actor_flags
        = state_anna_cooked.actor_flags
    ∧ (skip_turn state_anna_cooked "kevin").1.actor_flags
        = state_anna_cooked.actor_flags
    ∧ (invoke [("move_to", move_to_tool)] "move_to"
        ⟨two_room_house, state_anna_cooked, "kevin"⟩
        [("dst", AVal.vStr "kitchen")]).1.state.turn_index = 1
    ∧ get_flag (invoke [("move_to", move_to_tool)] "move_to"
        ⟨two_room_house, state_anna_cooked, "kevin"⟩
        [("dst", AVal.vStr "kitchen")]).1.state "anna" "cooked_this_turn"
        = some (AVal.vBool true)
    ∧ get_flag (reset_turn_flags state_anna_cooked "anna") "anna"
        "cooked_this_turn" = some (AVal.vBool false) := by
  decide

/-! ## C7: talk auto-close at `2 * max_exchanges` utterances -/

/-- C7: the `talk_say` that brings the message count to
`2 * max_exchanges` succeeds, records the utterance, and closes the
interaction on the spot with `ended_reason = "max_exchanges"`; and any
`talk_say` aimed at a closed interaction (in any state) returns a failing
result. -/
theorem talk_say_max_exchanges_spec (s : WorldState) (who iid text : String)
    (i : Interaction)
    (hlk : alookup s.interactions iid = some i)
    (hkind : i.kind = "talk") (hst : i.status = "active")
    (hwho : who = i.initiator ∨ who = i.target)
    (hloc1 : alookup s.locations i.initiator = some i.room_id)
    (hloc2 : alookup s.locations i.target = some i.room_id)
    (hcount : (i.messages.length : Int) + 1 = 2 * i.max_exchanges) :
    (talk_say s who iid text).2.ok = true
    ∧ (∃ i', alookup (talk_say s who iid text).1.interactions iid = some i'
        ∧ i'.status = "closed" ∧ i'.ended_reason = some "max_exchanges"
        ∧ i'.messages.length = i.messages.length + 1)
    ∧ (∀ (s2 : WorldState) (who2 text2 : String) (i2 : Interaction),
        alookup s2.interactions iid = some i2 → i2.status = "closed" →
        (talk_say s2 who2 iid text2).2.ok = false) := by
  refine ⟨?_, ?_, ?_⟩
  · simp only [talk_say, hlk]
    rw [if_neg (by simp [hkind]), if_neg (by simp [hst]),
      if_neg (by tauto), if_neg (by simp [hloc1, hloc2]),
      if_pos (by
        simp only [Interaction.utterances, Interaction.max_utterances,
          List.length_append, List.length_cons, List.length_nil]
        omega)]
  · simp only [talk_say, hlk]
    rw [if_neg (by simp [hkind]), if_neg (by simp [hst]),
      if_neg (by tauto), if_neg (by simp [hloc1, hloc2]),
      if_pos (by
        simp only [Interaction.utterances, Interaction.max_utterances,
          List.length_append, List.length_cons, List.length_nil]
        omega)]
    simp only [emit, close_interaction, append_events_interactions,
      alookup_aset_self]
    refine ⟨_, rfl, rfl, rfl, ?_⟩
    simp
  · intro s2 who2 text2 i2 hlk2 hcl
    simp only [talk_say, hlk2]
    by_cases hk2 : i2.kind = "talk"
    · rw [if_neg (by simp [hk2]), if_pos (by simp [hcl])]
      rfl
    · rw [if_pos (by simp [hk2])]
      rfl

/-- Witness for C7: the sixth utterance on a five-message talk (with
`max_exchanges = 3`) closes it, and a later `talk_say` on the same id
fails. -/
theorem talk_say_max_exchanges_spec_witness :
    alookup state_talk_five.interactions "i1" = some talk_five_messages
    ∧ talk_five_messages.kind = "talk"
    ∧ talk_five_messages.status = "active"
    ∧ ((talk_five_messages.messages.length : Int) + 1
        = 2 * talk_five_messages.max_exchanges)
    ∧ (talk_say state_talk_five "kevin" "i1" "m6").2.ok = true
    ∧ (∃ i', alookup (talk_say state_talk_five "kevin" "i1" "m6").1.interactions
          "i1" = some i'
        ∧ i'.status = "closed" ∧ i'.ended_reason = some "max_exchanges"
        ∧ i'.messages.length = talk_five_messages.messages.length + 1)
    ∧ (talk_say (talk_say state_talk_five "kevin" "i1" "m6").1 "anna" "i1"
        "m7").2.ok = false := by
  have h := talk_say_max_exchanges_spec state_talk_five "kevin" "i1" "m6"
    talk_five_messages rfl rfl rfl (Or.inl rfl) rfl rfl (by decide)
  obtain ⟨i', hl', hs', -, -⟩ := h.2.1
  exact ⟨rfl, rfl, rfl, by decide, h.1, h.2.1,
    h.2.2 (talk_say state_talk_five "kevin" "i1" "m6").1 "anna" "m7" i' hl' hs'⟩

/-! ## Frame lemmas for counters and `task_request` -/

theorem get_counter_set_counter_self (s : WorldState) (a k : String)
    (v d : Int) : get_counter (set_counter s a k v) a k d = v := by
  simp [get_counter, set_counter, alookup_aset_self]

theorem set_counter_next_interaction_id (s : WorldState) (a k : String)
    (v : Int) : (set_counter s a k v).next_interaction_id
      = s.next_interaction_id := rfl

theorem set_counter_turn (s : WorldState) (a k : String) (v : Int) :
    (set_counter s a k v).turn = s.turn := rfl

theorem set_counter_turn_index (s : WorldState) (a k : String) (v : Int) :
    (set_counter s a k v).turn_index = s.turn_index := rfl

theorem set_counter_turn_order (s : WorldState) (a k : String) (v : Int) :
    (set_counter s a k v).turn_order = s.turn_order := rfl

theorem set_counter_interactions (s : WorldState) (a k : String) (v : Int) :
    (set_counter s a k v).interactions = s.interactions := rfl

theorem task_request_result_ok (s : WorldState) (a b r tn : String)
    (ta : List (String × String)) :
    (task_request s a b r tn ta).2.ok = true := rfl

theorem task_request_result_consume (s : WorldState) (a b r tn : String)
    (ta : List (String × String)) :
    (task_request s a b r tn ta).2.consume_turn = true := rfl

theorem task_request_interactions (s : WorldState) (a b r tn : String)
    (ta : List (String × String)) :
    (task_request s a b r tn ta).1.interactions
      = aset s.interactions ("i" ++ toString s.next_interaction_id)
          { id := "i" ++ toString s.next_interaction_id, kind := "task_request",
            initiator := a, target := b, room_id := r, status := "pending",
            created_turn := s.turn,
            data := [("tool", AVal.vStr tn), ("args", AVal.vDict ta)] } := by
  simp only [task_request, new_interaction_id, emit]
  rw [append_events_interactions]

theorem task_request_actor_counters (s : WorldState) (a b r tn : String)
    (ta : List (String × String)) :
    (task_request s a b r tn ta).1.actor_counters = s.actor_counters := by
  simp only [task_request, new_interaction_id, emit]
  rw [append_events_actor_counters]

theorem task_request_turn (s : WorldState) (a b r tn : String)
    (ta : List (String × String)) :
    (task_request s a b r tn ta).1.turn = s.turn := by
  simp only [task_request, new_interaction_id, emit]
  rw [append_events_turn]

theorem task_request_turn_index (s : WorldState) (a b r tn : String)
    (ta : List (String × String)) :
    (task_request s a b r tn ta).1.turn_index = s.turn_index := by
  simp only [task_request, new_interaction_id, emit]
  rw [append_events_turn_index]

theorem task_request_turn_order (s : WorldState) (a b r tn : String)
    (ta : List (String × String)) :
    (task_request s a b r tn ta).1.turn_order = s.turn_order := by
  simp only [task_request, new_interaction_id, emit]
  rw [append_events_turn_order]

/-! ## C1: `request_anna` creates a pending task request, spends a request,
and consumes the turn -/

theorem inc_counter_next_interaction_id (s : WorldState) (a k : String)
    (delta d : Int) (fl ce : Option Int) :
    (inc_counter s a k delta d fl ce).next_interaction_id
      = s.next_interaction_id := rfl

theorem inc_counter_turn (s : WorldState) (a k : String) (delta d : Int)
    (fl ce : Option Int) : (inc_counter s a k delta d fl ce).turn = s.turn := rfl

theorem inc_counter_turn_index (s : WorldState) (a k : String) (delta d : Int)
    (fl ce : Option Int) :
    (inc_counter s a k delta d fl ce).turn_index = s.turn_index := rfl

theorem inc_counter_turn_order (s : WorldState) (a k : String) (delta d : Int)
    (fl ce : Option Int) :
    (inc_counter s a k delta d fl ce).turn_order = s.turn_order := rfl

theorem get_counter_advance (s : WorldState) (a k : String) (d : Int) :
    get_counter (advance_turn s) a k d = get_counter s a k d := by
  rw [get_counter, get_counter, advance_turn_actor_counters]

theorem get_counter_task_request (s : WorldState) (a' b r tn : String)
    (ta : List (String × String)) (a k : String) (d : Int) :
    get_counter (task_request s a' b r tn ta).1 a k d = get_counter s a k d := by
  rw [get_counter, get_counter, task_request_actor_counters]

theorem get_counter_decay (x : String) (s : WorldState) (a k : String)
    (d : Int) : get_counter (decay_state x s) a k d = get_counter s a k d := rfl

theorem decay_state_next_interaction_id_simp (x : String) (s : WorldState) :
    (decay_state x s).next_interaction_id = s.next_interaction_id := rfl

/-- C1: dispatching `request_anna` with a valid requestable tool while
Kevin still has requests left succeeds, stores a new `task_request`
interaction with status `pending` and payload `{tool, args}` under the next
interaction id, decrements `requests_left` by exactly one, and advances the
turn exactly as one `advance_turn` step from the input state. -/
theorem request_anna_spec (reg : List (String × Tool)) (ctx : ActionContext)
    (args : List (String × AVal)) (t : String)
    (hreg : alookup reg "request_anna" = some request_anna_tool)
    (hactor : ctx.actor = "kevin")
    (hcan : (request_anna_can_run ctx args).1 = true)
    (ht : alookup args "tool" = some (AVal.vStr t)) :
    (invoke reg "request_anna" ctx args).2.ok = true
    ∧ (∃ inter,
        alookup (invoke reg "request_anna" ctx args).1.state.interactions
          ("i" ++ toString ctx.state.next_interaction_id) = some inter
        ∧ inter.kind = "task_request" ∧ inter.status = "pending"
        ∧ inter.data = [("tool", AVal.vStr t),
                        ("args", AVal.vDict (request_args_payload args))])
    ∧ get_counter (invoke reg "request_anna" ctx args).1.state "kevin"
        "requests_left" 0
      = get_counter ctx.state "kevin" "requests_left" 0 - 1
    ∧ (invoke reg "request_anna" ctx args).1.state.turn
        = (advance_turn ctx.state).turn
    ∧ (invoke reg "request_anna" ctx args).1.state.turn_index
        = (advance_turn ctx.state).turn_index := by
  have hpos : 0 < get_counter ctx.state "kevin" "requests_left" 0 := by
    by_contra hle
    push_neg at hle
    simp only [request_anna_can_run] at hcan
    rw [if_neg (by simp [hactor]), if_pos hle] at hcan
    simp at hcan
  simp only [invoke, hreg]
  rw [if_neg (by simp [request_anna_tool, hcan]), if_neg (by decide)]
  simp only [request_anna_tool, request_anna_run, arg_str, ht,
    Option.getD_some, task_request_result_ok, task_request_result_consume,
    Bool.and_self, if_true]
  refine ⟨trivial, ?_, ?_, ?_, ?_⟩
  · simp only [advance_turn_interactions, task_request_interactions,
      inc_counter_next_interaction_id, decay_state_next_interaction_id_simp,
      alookup_aset_self]
    exact ⟨_, rfl, rfl, rfl, rfl⟩
  · rw [get_counter_advance, get_counter_task_request]
    simp only [inc_counter, get_counter_set_counter_self, get_counter_decay]
    omega
  · refine (advance_turn_congr _ _ ?_ ?_ ?_).1
    · rw [task_request_turn, inc_counter_turn, decay_state_turn]
    · rw [task_request_turn_index, inc_counter_turn_index,
        decay_state_turn_index]
    · rw [task_request_turn_order, inc_counter_turn_order,
        decay_state_turn_order]
  · refine (advance_turn_congr _ _ ?_ ?_ ?_).2
    · rw [task_request_turn, inc_counter_turn, decay_state_turn]
    · rw [task_request_turn_index, inc_counter_turn_index,
        decay_state_turn_index]
    · rw [task_request_turn_order, inc_counter_turn_order,
        decay_state_turn_order]

/-- Witness for C1: Kevin, with 9 requests left in the initial state,
requests `wash_dishes` from Anna. -/
theorem request_anna_spec_witness :
    alookup [("request_anna", request_anna_tool)] "request_anna"
      = some request_anna_tool
    ∧ (⟨empty_house, make_initial_state, "kevin"⟩ : ActionContext).actor
      = "kevin"
    ∧ (request_anna_can_run ⟨empty_house, make_initial_state, "kevin"⟩
        [("tool", AVal.vStr "wash_dishes")]).1 = true
    ∧ (invoke [("request_anna", request_anna_tool)] "request_anna"
        ⟨empty_house, make_initial_state, "kevin"⟩
        [("tool", AVal.vStr "wash_dishes")]).2.ok = true
    ∧ (∃ inter,
        alookup (invoke [("request_anna", request_anna_tool)] "request_anna"
          ⟨empty_house, make_initial_state, "kevin"⟩
          [("tool", AVal.vStr "wash_dishes")]).1.state.interactions
          ("i" ++ toString make_initial_state.next_interaction_id) = some inter
        ∧ inter.kind = "task_request" ∧ inter.status = "pending"
        ∧ inter.data = [("tool", AVal.vStr "wash_dishes"),
            ("args", AVal.vDict (request_args_payload
              [("tool", AVal.vStr "wash_dishes")]))])
    ∧ get_counter (invoke [("request_anna", request_anna_tool)] "request_anna"
        ⟨empty_house, make_initial_state, "kevin"⟩
        [("tool", AVal.vStr "wash_dishes")]).1.state "kevin" "requests_left" 0
      = get_counter make_initial_state "kevin" "requests_left" 0 - 1
    ∧ (invoke [("request_anna", request_anna_tool)] "request_anna"
        ⟨empty_house, make_initial_state, "kevin"⟩
        [("tool", AVal.vStr "wash_dishes")]).1.state.turn
      = (advance_turn make_initial_state).turn
    ∧ (invoke [("request_anna", request_anna_tool)] "request_anna"
        ⟨empty_house, make_initial_state, "kevin"⟩
        [("tool", AVal.vStr "wash_dishes")]).1.state.turn_index
      = (advance_turn make_initial_state).turn_index := by
  have h := request_anna_spec [("request_anna", request_anna_tool)]
    ⟨empty_house, make_initial_state, "kevin"⟩
    [("tool", AVal.vStr "wash_dishes")] "wash_dishes" rfl rfl (by decide) rfl
  exact ⟨rfl, rfl, by decide, h.1, h.2.1, h.2.2.1, h.2.2.2.1, h.2.2.2.2⟩

/-! ## C2: the decay step in the dispatch pipeline -/

theorem decay_transform_talk (a : String) (tn : Int) (i : Interaction)
    (hk : i.kind = "talk") (hs : i.status = "pending") (htg : i.target = a) :
    decay_transform a tn i = declined_copy a "decay" tn i := by
  have h1 : decline_hit a i = true := by simp [decline_hit, hk, hs, htg]
  have h2 : reject_hit a (declined_copy a "decay" tn i) = false := by
    simp [reject_hit, declined_copy, hk]
  simp [decay_transform, h1, h2]

theorem decay_transform_task (a : String) (tn : Int) (i : Interaction)
    (hk : i.kind = "task_request") (hs : i.status = "pending")
    (htg : i.target = a) :
    decay_transform a tn i = declined_copy a "decay" tn i := by
  have h1 : decline_hit a i = false := by simp [decline_hit, hk]
  have h2 : reject_hit a i = true := by simp [reject_hit, hk, hs, htg]
  simp [decay_transform, h1, h2]

theorem filter_reject_length_map (a : String) (tn : Int)
    (l : List (String × Interaction)) :
    ((l.map (fun p =>
        if decline_hit a p.2 then (p.1, declined_copy a "decay" tn p.2)
        else p)).filter (fun p => reject_hit a p.2)).length
      = (l.filter (fun p => reject_hit a p.2)).length := by
  induction l with
  | nil => rfl
  | cons p t ih =>
    obtain ⟨k, v⟩ := p
    simp only [List.map_cons]
    by_cases hv : decline_hit a v
    · have hkind : v.kind = "talk" := by
        simp [decline_hit] at hv; exact hv.1.1
      have h1 : reject_hit a (declined_copy a "decay" tn v) = false := by
        simp [reject_hit, declined_copy, hkind]
      have h2 : reject_hit a v = false := by simp [reject_hit, hkind]
      rw [if_pos hv]
      simp [List.filter_cons, h1, h2, ih]
    · rw [if_neg hv]
      simp only [List.filter_cons]
      by_cases hr : reject_hit a v <;> simp [hr, ih]

theorem decay_state_events_length (a : String) (s : WorldState) :
    (decay_state a s).events.length
      = s.events.length
        + (s.interactions.filter (fun p => decline_hit a p.2)).length
        + (s.interactions.filter (fun p => reject_hit a p.2)).length := by
  simp only [decay_state, auto_decline_pending_talks,
    auto_reject_pending_task_requests]
  simp [filter_reject_length_map]
  omega

/-- C2: for a dispatched tool outside
`{talk_accept, talk_decline, task_accept, task_reject}` whose `can_run`
passes, the tool body runs on the decayed state (and the result is the tool
body's result, with the usual turn consumption afterwards); in that decayed
state every pending talk and every pending task request aimed at the actor
has been rewritten to `declined` (the talk pass emits `talk_decline`
events, the task pass `task_reject` events), one new event per auto-closed
interaction. -/
theorem decay_step_spec (reg : List (String × Tool)) (tool_name : String)
    (ctx : ActionContext) (args : List (String × AVal)) (tool : Tool)
    (hname : decay_exempt.contains tool_name = false)
    (hreg : alookup reg tool_name = some tool)
    (hcan : (tool.can_run ctx args).1 = true) :
    ((invoke reg tool_name ctx args).2
        = (tool.run ⟨ctx.house, decay_state ctx.actor ctx.state, ctx.actor⟩
            args).2
      ∧ (invoke reg tool_name ctx args).1.state
        = (if (tool.run ⟨ctx.house, decay_state ctx.actor ctx.state,
                ctx.actor⟩ args).2.ok
              && (tool.run ⟨ctx.house, decay_state ctx.actor ctx.state,
                ctx.actor⟩ args).2.consume_turn
           then advance_turn (tool.run ⟨ctx.house,
                decay_state ctx.actor ctx.state, ctx.actor⟩ args).1
           else (tool.run ⟨ctx.house, decay_state ctx.actor ctx.state,
                ctx.actor⟩ args).1))
    ∧ (∀ iid i, alookup ctx.state.interactions iid = some i →
        i.target = ctx.actor → i.status = "pending" →
        (i.kind = "talk" ∨ i.kind = "task_request") →
        alookup (decay_state ctx.actor ctx.state).interactions iid
          = some (declined_copy ctx.actor "decay" ctx.state.turn i))
    ∧ (decay_state ctx.actor ctx.state).events.length
      = ctx.state.events.length
        + (ctx.state.interactions.filter
            (fun p => decline_hit ctx.actor p.2)).length
        + (ctx.state.interactions.filter
            (fun p => reject_hit ctx.actor p.2)).length := by
  refine ⟨?_, ?_, decay_state_events_length ctx.actor ctx.state⟩
  · simp only [invoke, hreg]
    rw [if_neg (by simp [hcan]), if_neg (by simpa using hname)]
    exact ⟨rfl, rfl⟩
  · intro iid i hlk htg hs hk
    rw [decay_state_lookup, hlk]
    rcases hk with hk | hk
    · simp [decay_transform_talk ctx.actor ctx.state.turn i hk hs htg]
    · simp [decay_transform_task ctx.actor ctx.state.turn i hk hs htg]

/-- Witness for C2: Kevin dispatches `move_to` while a pending talk (`i1`)
and a pending task request (`i2`) are directed at him; both are auto-closed
before the tool body runs, with two new events. -/
theorem decay_step_spec_witness :
    decay_exempt.contains "move_to" = false
    ∧ alookup [("move_to", move_to_tool)] "move_to" = some move_to_tool
    ∧ (move_to_tool.can_run ⟨two_room_house, state_pending_both, "kevin"⟩
        [("dst", AVal.vStr "kitchen")]).1 = true
    ∧ alookup (decay_state "kevin" state_pending_both).interactions "i1"
        = some (declined_copy "kevin" "decay" state_pending_both.turn
            pending_talk_i1)
    ∧ alookup (decay_state "kevin" state_pending_both).interactions "i2"
        = some (declined_copy "kevin" "decay" state_pending_both.turn
            pending_task_i2)
    ∧ (decay_state "kevin" state_pending_both).events.length
      = state_pending_both.events.length
        + (state_pending_both.interactions.filter
            (fun p => decline_hit "kevin" p.2)).length
        + (state_pending_both.interactions.filter
            (fun p => reject_hit "kevin" p.2)).length := by
  have h := decay_step_spec [("move_to", move_to_tool)] "move_to"
    ⟨two_room_house, state_pending_both, "kevin"⟩
    [("dst", AVal.vStr "kitchen")] move_to_tool (by decide) rfl (by decide)
  exact ⟨by decide, rfl, by decide,
    h.2.1 "i1" pending_talk_i1 rfl rfl rfl (Or.inl rfl),
    h.2.1 "i2" pending_task_i2 rfl rfl rfl (Or.inr rfl),
    h.2.2⟩

/-! ## C3: failing calls and state mutation -/

theorem apply_move_fail (house : House) (s : WorldState) (who dst : String) :
    (apply_move house s who dst).2.ok = false →
    (apply_move house s who dst).1 = s := by
  simp only [apply_move]
  split
  · exact fun _ => rfl
  · split_ifs <;> intro h
    · rfl
    · rfl
    · rfl
    · rfl
    · exfalso; simp [emit] at h

theorem unlock_room_fail (house : House) (s : WorldState) (who r : String) :
    (unlock_room house s who r).2.ok = false →
    (unlock_room house s who r).1 = s := by
  simp only [unlock_room]
  split_ifs <;> intro h
  · rfl
  · rfl
  · rfl
  · exfalso; simp [emit] at h

theorem lock_room_fail (house : House) (s : WorldState) (who r : String) :
    (lock_room house s who r).2.ok = false →
    (lock_room house s who r).1 = s := by
  simp only [lock_room]
  split_ifs <;> intro h
  · rfl
  · rfl
  · rfl
  · exfalso; simp [emit] at h

theorem end_turn_fail (s : WorldState) (who : String) :
    (end_turn s who).2.ok = false → (end_turn s who).1 = s := by
  intro h
  exfalso
  simp [end_turn, emit] at h

theorem skip_turn_fail (s : WorldState) (who : String) :
    (skip_turn s who).2.ok = false → (skip_turn s who).1 = s := by
  intro h
  exfalso
  simp [skip_turn, emit] at h

theorem talk_request_fail (s : WorldState) (a b r : String) :
    (talk_request s a b r).2.ok = false → (talk_request s a b r).1 = s := by
  simp only [talk_request]
  split_ifs <;> intro h
  · rfl
  · rfl
  · rfl
  · rfl
  · exfalso; simp [new_interaction_id, emit] at h

theorem talk_accept_fail (s : WorldState) (who iid : String) :
    (talk_accept s who iid).2.ok = false → (talk_accept s who iid).1 = s := by
  simp only [talk_accept]
  split
  · exact fun _ => rfl
  · split_ifs <;> intro h
    · rfl
    · rfl
    · rfl
    · rfl
    · exfalso; simp [emit] at h

theorem talk_decline_fail (s : WorldState) (who iid : String) :
    (talk_decline s who iid).2.ok = false → (talk_decline s who iid).1 = s := by
  simp only [talk_decline]
  split
  · exact fun _ => rfl
  · split_ifs <;> intro h
    · rfl
    · rfl
    · rfl
    · exfalso; simp [emit] at h

theorem talk_end_fail (s : WorldState) (who iid : String) :
    (talk_end s who iid).2.ok = false → (talk_end s who iid).1 = s := by
  simp only [talk_end]
  split
  · exact fun _ => rfl
  · split_ifs <;> intro h
    · rfl
    · rfl
    · rfl
    · exfalso; simp [emit] at h

theorem talk_say_fail (s : WorldState) (who iid text : String) :
    (talk_say s who iid text).2.ok = false → (talk_say s who iid text).1 = s := by
  simp only [talk_say]
  split
  · exact fun _ => rfl
  · split_ifs <;> intro h
    · rfl
    · rfl
    · rfl
    · exfalso; simp [emit] at h
    · exfalso; simp [emit] at h
    · exfalso; simp [emit] at h

/-- Counterexample to C3 as stated: Kevin, with a pending talk request
(`i1`) directed at him, dispatches `move_to` with `dst = living_room` (his
current room).  `can_run` passes, the decay step auto-declines `i1` and
appends its event, and only then does the tool body fail (`NoOpMove`): the
failing call returns `ok = False` together with a state that differs from
the input — `i1` is now declined and one event was appended. -/
theorem invoke_failure_keeps_decay_counterexample :
    (invoke [("move_to", move_to_tool)] "move_to"
      ⟨two_room_house, state_pending_talk, "kevin"⟩
      [("dst", AVal.vStr "living_room")]).2.ok = false
    ∧ (invoke [("move_to", move_to_tool)] "move_to"
        ⟨two_room_house, state_pending_talk, "kevin"⟩
        [("dst", AVal.vStr "living_room")]).1.state ≠ state_pending_talk
    ∧ alookup (invoke [("move_to", move_to_tool)] "move_to"
        ⟨two_room_house, state_pending_talk, "kevin"⟩
        [("dst", AVal.vStr "living_room")]).1.state.interactions "i1"
      = some (declined_copy "kevin" "decay" 0 pending_talk_i1)
    ∧ (invoke [("move_to", move_to_tool)] "move_to"
        ⟨two_room_house, state_pending_talk, "kevin"⟩
        [("dst", AVal.vStr "living_room")]).1.state.events.length
      = state_pending_talk.events.length + 1 := by
  decide

/-- C3 as amended: every engine operation returns a usable
`(state, result)` pair and, when its result has `ok = False`, the returned
state is identical to the input state; the dispatch pipeline returns the
context unchanged on the failures that occur before its decay step (unknown
tool, `can_run` refusal).  (Once dispatch reaches the decay step, a later
tool-body failure keeps the decay effects, as the counterexample shows.) -/
theorem engine_dispatch_failure_spec :
    (∀ (house : House) (s : WorldState) (op : EngineOp),
      (engine_step house s op).2.ok = false → (engine_step house s op).1 = s)
    ∧ (∀ (tools : List (String × Tool)) (tool_name : String)
        (ctx : ActionContext) (args : List (String × AVal)),
        (alookup tools tool_name = none
          ∨ ∃ t, alookup tools tool_name = some t
              ∧ (t.can_run ctx args).1 = false) →
        (invoke tools tool_name ctx args).1 = ctx
        ∧ (invoke tools tool_name ctx args).2.ok = false) := by
  constructor
  · intro house s op
    cases op with
    | move who dst => exact apply_move_fail house s who dst
    | lockR who r => exact lock_room_fail house s who r
    | unlockR who r => exact unlock_room_fail house s who r
    | endT who => exact end_turn_fail s who
    | skipT who => exact skip_turn_fail s who
    | treq a b r => exact talk_request_fail s a b r
    | tacc w i => exact talk_accept_fail s w i
    | tdecl w i => exact talk_decline_fail s w i
    | tendo w i => exact talk_end_fail s w i
    | tsay w i t => exact talk_say_fail s w i t
  · rintro tools tool_name ctx args (hnone | ⟨t, hsome, hfail⟩)
    · simp [invoke, hnone, ToolResult.fail]
    · simp [invoke, hsome, hfail, ToolResult.fail]

/-- Witness for the amended C3: the no-op move fails at the engine level
with the state unchanged, and dispatching an unknown tool or a tool whose
`can_run` refuses (a `move_to` without `dst`) leaves the context
unchanged. -/
theorem engine_dispatch_failure_spec_witness :
    ((engine_step two_room_house make_initial_state
        (EngineOp.move "kevin" "living_room")).2.ok = false
      → (engine_step two_room_house make_initial_state
          (EngineOp.move "kevin" "living_room")).1 = make_initial_state)
    ∧ (engine_step two_room_house make_initial_state
        (EngineOp.move "kevin" "living_room")).2.ok = false
    ∧ (alookup ([] : List (String × Tool)) "no_such_tool" = none
      ∨ ∃ t, alookup ([] : List (String × Tool)) "no_such_tool" = some t
          ∧ (t.can_run ⟨two_room_house, make_initial_state, "kevin"⟩ []).1
            = false)
    ∧ (invoke [] "no_such_tool"
        ⟨two_room_house, make_initial_state, "kevin"⟩ []).1
      = ⟨two_room_house, make_initial_state, "kevin"⟩
    ∧ (invoke [("move_to", move_to_tool)] "move_to"
        ⟨two_room_house, make_initial_state, "kevin"⟩ []).1
      = ⟨two_room_house, make_initial_state, "kevin"⟩
    ∧ (invoke [("move_to", move_to_tool)] "move_to"
        ⟨two_room_house, make_initial_state, "kevin"⟩ []).2.ok = false := by
  have h := engine_dispatch_failure_spec
  refine ⟨h.1 two_room_house make_initial_state
    (EngineOp.move "kevin" "living_room"), by decide, Or.inl rfl, ?_, ?_, ?_⟩
  · exact (h.2 [] "no_such_tool"
      ⟨two_room_house, make_initial_state, "kevin"⟩ [] (Or.inl rfl)).1
  · exact (h.2 [("move_to", move_to_tool)] "move_to"
      ⟨two_room_house, make_initial_state, "kevin"⟩ []
      (Or.inr ⟨move_to_tool, rfl, by decide⟩)).1
  · exact (h.2 [("move_to", move_to_tool)] "move_to"
      ⟨two_room_house, make_initial_state, "kevin"⟩ []
      (Or.inr ⟨move_to_tool, rfl, by decide⟩)).2

/-! ## C4: talk exclusivity, part 1 — decay preserves the invariant -/

theorem talk_nonterminal_declined_copy (a r : String) (tn : Int)
    (i : Interaction) : talk_nonterminal (declined_copy a r tn i) = false := by
  simp [talk_nonterminal, declined_copy]

theorem decay_transform_of_decline (a : String) (tn : Int) (i : Interaction)
    (h1 : decline_hit a i = true) :
    decay_transform a tn i = declined_copy a "decay" tn i := by
  have h2 : reject_hit a (declined_copy a "decay" tn i) = false := by
    simp [reject_hit, declined_copy]
  simp [decay_transform, h1, h2]

theorem decay_transform_of_reject (a : String) (tn : Int) (i : Interaction)
    (h1 : decline_hit a i = false) (h2 : reject_hit a i = true) :
    decay_transform a tn i = declined_copy a "decay" tn i := by
  simp [decay_transform, h1, h2]

theorem decay_transform_of_miss (a : String) (tn : Int) (i : Interaction)
    (h1 : decline_hit a i = false) (h2 : reject_hit a i = false) :
    decay_transform a tn i = i := by
  simp [decay_transform, h1, h2]

theorem decay_transform_id_of_nonterminal (a : String) (tn : Int)
    (i : Interaction) (h : talk_nonterminal (decay_transform a tn i) = true) :
    decay_transform a tn i = i := by
  by_cases h1 : decline_hit a i
  · rw [decay_transform_of_decline a tn i h1] at h
    rw [talk_nonterminal_declined_copy] at h
    exact absurd h (by simp)
  · by_cases h2 : reject_hit a i
    · rw [decay_transform_of_reject a tn i (by simpa using h1) h2] at h
      rw [talk_nonterminal_declined_copy] at h
      exact absurd h (by simp)
    · exact decay_transform_of_miss a tn i (by simpa using h1)
        (by simpa using h2)

theorem decay_transform_no_pending (a : String) (tn : Int) (i : Interaction)
    (hk : (decay_transform a tn i).kind = "talk")
    (hs : (decay_transform a tn i).status = "pending") :
    (decay_transform a tn i).target ≠ a := by
  by_cases h1 : decline_hit a i
  · rw [decay_transform_of_decline a tn i h1] at hs
    simp [declined_copy] at hs
  · by_cases h2 : reject_hit a i
    · rw [decay_transform_of_reject a tn i (by simpa using h1) h2] at hs
      simp [declined_copy] at hs
    · have he := decay_transform_of_miss a tn i (by simpa using h1)
        (by simpa using h2)
      rw [he] at hk hs ⊢
      intro hta
      exact h1 (by simp [decline_hit, hk, hs, hta])

theorem decay_state_interactions_inv (a : String) (s : WorldState)
    (h : InteractionsInv s.interactions) :
    InteractionsInv (decay_state a s).interactions := by
  constructor
  · intro iid i hlk hnt
    rw [decay_state_lookup] at hlk
    rcases ho : alookup s.interactions iid with _ | i0 <;> rw [ho] at hlk
    · simp at hlk
    · simp only [Option.map_some', Option.some.injEq] at hlk
      subst hlk
      have hid := decay_transform_id_of_nonterminal a s.turn i0 hnt
      rw [hid] at hnt ⊢
      exact h.1 iid i0 ho hnt
  · intro x1 j1 x2 j2 h1 h2 hj1 hj2
    rw [decay_state_lookup] at h1 h2
    rcases o1 : alookup s.interactions x1 with _ | i1 <;> rw [o1] at h1
    · simp at h1
    rcases o2 : alookup s.interactions x2 with _ | i2 <;> rw [o2] at h2
    · simp at h2
    simp only [Option.map_some', Option.some.injEq] at h1 h2
    subst h1; subst h2
    have e1 := decay_transform_id_of_nonterminal a s.turn i1 hj1
    have e2 := decay_transform_id_of_nonterminal a s.turn i2 hj2
    rw [e1] at hj1
    rw [e2] at hj2
    exact h.2 x1 i1 x2 i2 o1 o2 hj1 hj2

theorem decay_state_no_pending (a : String) (s : WorldState) :
    no_pending_talk_for a (decay_state a s) := by
  intro iid i hlk hk hs
  rw [decay_state_lookup] at hlk
  rcases ho : alookup s.interactions iid with _ | i0 <;> rw [ho] at hlk
  · simp at hlk
  · simp only [Option.map_some', Option.some.injEq] at hlk
    subst hlk
    exact decay_transform_no_pending a s.turn i0 hk hs

theorem talk_inv_decay (a : String) (s : WorldState) (h : TalkInv s) :
    TalkInv (decay_state a s) :=
  ⟨by rw [decay_state_locations]; exact h.1,
   decay_state_interactions_inv a s h.2⟩

theorem talk_inv_advance (s : WorldState) (h : TalkInv s) :
    TalkInv (advance_turn s) :=
  ⟨by rw [advance_turn_locations]; exact h.1,
   by rw [advance_turn_interactions]; exact h.2⟩

theorem talk_inv_if_advance (c : Bool) (s : WorldState) (h : TalkInv s) :
    TalkInv (if c = true then advance_turn s else s) := by
  split_ifs
  · exact talk_inv_advance s h
  · exact h

theorem initial_locations_mem (x r : String)
    (h : alookup make_initial_state.locations x = some r) :
    x = "kevin" ∨ x = "anna" := by
  simp only [make_initial_state, alookup] at h
  split_ifs at h with h1 h2
  · exact Or.inl h1.symm
  · exact Or.inr h2.symm

/-! ## C4, part 2 — the invariant across single engine operations -/

theorem interactions_inv_aset_replace (l : List (String × Interaction))
    (iid : String) (i i' : Interaction) (h : InteractionsInv l)
    (hlk : alookup l iid = some i)
    (hini : i'.initiator = i.initiator) (htar : i'.target = i.target)
    (hnt : talk_nonterminal i' = true → talk_nonterminal i = true) :
    InteractionsInv (aset l iid i') := by
  constructor
  · intro x j hx hj
    rw [alookup_aset] at hx
    by_cases he : iid = x
    · rw [if_pos he] at hx
      injection hx with hxe
      subst hxe
      rw [hini, htar]
      exact h.1 iid i hlk (hnt hj)
    · rw [if_neg he] at hx
      exact h.1 x j hx hj
  · intro x1 j1 x2 j2 h1 h2 hj1 hj2
    rw [alookup_aset] at h1 h2
    by_cases e1 : iid = x1 <;> by_cases e2 : iid = x2
    · exact e1.symm.trans e2
    · rw [if_pos e1] at h1
      rw [if_neg e2] at h2
      injection h1 with h1e
      subst h1e
      exact e1.symm.trans (h.2 x2 j2 iid i h2 hlk hj2 (hnt hj1)).symm
    · rw [if_neg e1] at h1
      rw [if_pos e2] at h2
      injection h2 with h2e
      subst h2e
      exact (h.2 x1 j1 iid i h1 hlk hj1 (hnt hj2)).trans e2
    · rw [if_neg e1] at h1
      rw [if_neg e2] at h2
      exact h.2 x1 j1 x2 j2 h1 h2 hj1 hj2

theorem interactions_inv_aset_new (l : List (String × Interaction))
    (iid : String) (i' : Interaction)
    (hpart : (i'.initiator = "kevin" ∨ i'.initiator = "anna")
      ∧ (i'.target = "kevin" ∨ i'.target = "anna")
      ∧ i'.initiator ≠ i'.target)
    (hnone : ∀ x j, alookup l x = some j → talk_nonterminal j = true → False) :
    InteractionsInv (aset l iid i') := by
  constructor
  · intro x j hx hj
    rw [alookup_aset] at hx
    by_cases he : iid = x
    · rw [if_pos he] at hx
      injection hx with hxe
      subst hxe
      exact hpart
    · rw [if_neg he] at hx
      exact (hnone x j hx hj).elim
  · intro x1 j1 x2 j2 h1 h2 hj1 hj2
    rw [alookup_aset] at h1 h2
    by_cases e1 : iid = x1 <;> by_cases e2 : iid = x2
    · exact e1.symm.trans e2
    · rw [if_neg e2] at h2
      exact (hnone x2 j2 h2 hj2).elim
    · rw [if_neg e1] at h1
      exact (hnone x1 j1 h1 hj1).elim
    · rw [if_neg e1] at h1
      exact (hnone x1 j1 h1 hj1).elim

theorem talk_inv_emit (s : WorldState) (a t : String)
    (args : List (String × AVal)) (ok : Bool) (m : String) (h : TalkInv s) :
    TalkInv (emit s a t args ok m).1 := by
  simp only [emit]
  exact ⟨by rw [append_events_locations]; exact h.1,
         by rw [append_events_interactions]; exact h.2⟩

theorem close_interaction_talk_inv (s : WorldState) (iid eb r : String)
    (h : TalkInv s) : TalkInv (close_interaction s iid eb r) := by
  simp only [close_interaction]
  split
  · exact h
  · rename_i inter heq
    refine ⟨h.1, ?_⟩
    dsimp only
    refine interactions_inv_aset_replace _ _ inter _ h.2 heq ?_ ?_ ?_
    · rfl
    · rfl
    · intro hcl
      simp [talk_nonterminal] at hcl

theorem cover_pair (init targ x : String)
    (hi : init = "kevin" ∨ init = "anna") (ht : targ = "kevin" ∨ targ = "anna")
    (hne : init ≠ targ) (hx : x = "kevin" ∨ x = "anna") :
    x = init ∨ x = targ := by
  rcases hi with rfl | rfl <;> rcases ht with rfl | rfl <;>
    rcases hx with rfl | rfl <;> simp_all

theorem talk_accept_talk_inv (s : WorldState) (w iid : String)
    (h : TalkInv s) : TalkInv (talk_accept s w iid).1 := by
  simp only [talk_accept]
  split
  · exact h
  · rename_i inter heq
    split_ifs with c1 c2 c3 c4
    · exact h
    · exact h
    · exact h
    · exact h
    · refine ⟨?_, ?_⟩
      · simp only [emit]
        rw [append_events_locations]
        exact h.1
      · simp only [emit]
        rw [append_events_interactions]
        dsimp only
        refine interactions_inv_aset_replace _ _ inter _ h.2 heq ?_ ?_ ?_
        · rfl
        · rfl
        · intro _
          simp [talk_nonterminal, not_not.mp c1, not_not.mp c2]

theorem talk_decline_talk_inv (s : WorldState) (w iid : String)
    (h : TalkInv s) : TalkInv (talk_decline s w iid).1 := by
  simp only [talk_decline]
  split
  · exact h
  · rename_i inter heq
    split_ifs with c1 c2 c3
    · exact h
    · exact h
    · exact h
    · refine ⟨?_, ?_⟩
      · simp only [emit]
        rw [append_events_locations]
        exact h.1
      · simp only [emit]
        rw [append_events_interactions]
        dsimp only
        refine interactions_inv_aset_replace _ _ inter _ h.2 heq ?_ ?_ ?_
        · rfl
        · rfl
        · intro hd
          simp [talk_nonterminal] at hd

theorem talk_end_talk_inv (s : WorldState) (w iid : String)
    (h : TalkInv s) : TalkInv (talk_end s w iid).1 := by
  simp only [talk_end]
  split
  · exact h
  · rename_i inter heq
    split_ifs with c1 c2 c3
    · exact h
    · exact h
    · exact h
    · exact talk_inv_emit _ _ _ _ _ _
        (close_interaction_talk_inv s iid w "ended_by_actor" h)

theorem talk_say_talk_inv (s : WorldState) (w iid text : String)
    (h : TalkInv s) : TalkInv (talk_say s w iid text).1 := by
  simp only [talk_say]
  split
  · exact h
  · rename_i inter heq
    split_ifs with c1 c2 c3 c4 c5
    · exact h
    · exact h
    · exact h
    · exact talk_inv_emit _ _ _ _ _ _
        (close_interaction_talk_inv s iid w "separated" h)
    · apply talk_inv_emit
      apply close_interaction_talk_inv
      apply talk_inv_emit
      refine ⟨h.1, ?_⟩
      dsimp only
      refine interactions_inv_aset_replace _ _ inter _ h.2 heq ?_ ?_ ?_
      · rfl
      · rfl
      · exact fun hx => hx
    · apply talk_inv_emit
      refine ⟨h.1, ?_⟩
      dsimp only
      refine interactions_inv_aset_replace _ _ inter _ h.2 heq ?_ ?_ ?_
      · rfl
      · rfl
      · exact fun hx => hx

theorem talk_request_talk_inv (s : WorldState) (init targ room : String)
    (h : TalkInv s) (hnp : no_pending_talk_for init s) :
    TalkInv (talk_request s init targ room).1 := by
  simp only [talk_request]
  split_ifs with c1 c2 c3 c4
  · exact h
  · exact h
  · exact h
  · exact h
  · push_neg at c2
    have hinit : init = "kevin" ∨ init = "anna" :=
      initial_locations_mem init room (h.1 ▸ c2.1)
    have htarg : targ = "kevin" ∨ targ = "anna" :=
      initial_locations_mem targ room (h.1 ▸ c2.2)
    simp only [List.any_eq_true, decide_eq_true_eq, not_exists, not_and] at c3 c4
    have hnone : ∀ x j, alookup s.interactions x = some j →
        talk_nonterminal j = true → False := by
      intro x j hx hj
      have hmem := alookup_mem hx
      have hparts := h.2.1 x j hx hj
      simp only [talk_nonterminal, Bool.and_eq_true, Bool.or_eq_true,
        decide_eq_true_eq] at hj
      rcases hj.2 with hp | ha
      · have hti : j.target ≠ init := hnp x j hx hj.1 hp
        have htt : j.target = targ := by
          rcases cover_pair init targ j.target hinit htarg c1 hparts.2.1 with
            he | he
          · exact absurd he hti
          · exact he
        have hji : j.initiator = init := by
          rcases cover_pair init targ j.initiator hinit htarg c1 hparts.1 with
            he | he
          · exact he
          · rw [htt] at hparts
            exact absurd he hparts.2.2
        exact c4 (x, j) hmem (by simp [hj.1, hp, hji, htt])
      · rcases cover_pair init targ j.initiator hinit htarg c1 hparts.1 with
          he | he
        · exact c3 (x, j) hmem (by simp [hj.1, ha, he])
        · exact c3 (x, j) hmem (by simp [hj.1, ha, he])
    refine ⟨?_, ?_⟩
    · simp only [new_interaction_id, emit]
      rw [append_events_locations]
      exact h.1
    · simp only [new_interaction_id, emit]
      rw [append_events_interactions]
      dsimp only
      exact interactions_inv_aset_new _ _ _ ⟨hinit, htarg, c1⟩ hnone

/-! ## C4, part 3 — the invariant across the dispatch pipeline -/

theorem invoke_talk_registry_inv (house : House) (s : WorldState)
    (actor name : String) (args : List (String × AVal)) (h : TalkInv s) :
    TalkInv ((invoke talk_registry name ⟨house, s, actor⟩ args).1.state) := by
  rcases hlk : alookup talk_registry name with _ | tool
  · simp only [invoke, hlk]
    exact h
  · have hm := alookup_mem hlk
    simp only [talk_registry, List.mem_cons, Prod.mk.injEq,
      List.not_mem_nil, or_false] at hm
    rcases hm with ⟨rfl, rfl⟩ | ⟨rfl, rfl⟩ | ⟨rfl, rfl⟩ | ⟨rfl, rfl⟩ | ⟨rfl, rfl⟩
    · simp only [invoke, hlk]
      by_cases hc : (talk_request_tool.can_run ⟨house, s, actor⟩ args).1
      · rw [if_neg (by simp [hc]), if_neg (by decide)]
        dsimp only
        apply talk_inv_if_advance
        show TalkInv (talk_request_run
          ⟨house, decay_state actor s, actor⟩ args).1
        simp only [talk_request_run]
        split
        · exact talk_inv_decay actor s h
        · split_ifs with hr
          · exact talk_inv_decay actor s h
          · exact talk_request_talk_inv _ actor _ _
              (talk_inv_decay actor s h) (decay_state_no_pending actor s)
      · rw [if_pos (by simp [hc])]
        exact h
    · simp only [invoke, hlk]
      by_cases hc : (talk_accept_tool.can_run ⟨house, s, actor⟩ args).1
      · rw [if_neg (by simp [hc]), if_pos (by decide)]
        dsimp only
        apply talk_inv_if_advance
        exact talk_accept_talk_inv s actor _ h
      · rw [if_pos (by simp [hc])]
        exact h
    · simp only [invoke, hlk]
      by_cases hc : (talk_decline_tool.can_run ⟨house, s, actor⟩ args).1
      · rw [if_neg (by simp [hc]), if_pos (by decide)]
        dsimp only
        apply talk_inv_if_advance
        exact talk_decline_talk_inv s actor _ h
      · rw [if_pos (by simp [hc])]
        exact h
    · simp only [invoke, hlk]
      by_cases hc : (talk_say_tool.can_run ⟨house, s, actor⟩ args).1
      · rw [if_neg (by simp [hc]), if_neg (by decide)]
        dsimp only
        apply talk_inv_if_advance
        exact talk_say_talk_inv _ actor _ _ (talk_inv_decay actor s h)
      · rw [if_pos (by simp [hc])]
        exact h
    · simp only [invoke, hlk]
      by_cases hc : (talk_end_tool.can_run ⟨house, s, actor⟩ args).1
      · rw [if_neg (by simp [hc]), if_neg (by decide)]
        dsimp only
        apply talk_inv_if_advance
        exact talk_end_talk_inv _ actor _ (talk_inv_decay actor s h)
      · rw [if_pos (by simp [hc])]
        exact h

theorem reachable_talk_inv (s : WorldState) (h : ReachableTalk s) :
    TalkInv s := by
  induction h with
  | init =>
    refine ⟨rfl, ?_, ?_⟩
    · intro iid i hlk
      simp [make_initial_state, alookup] at hlk
    · intro x1 j1 x2 j2 h1
      simp [make_initial_state, alookup] at h1
  | step s house actor tool_name args _ ih =>
    exact invoke_talk_registry_inv house s actor tool_name args ih

/-- C4: in every state reachable from the initial state through the
dispatched talk operations, any two active talk interactions sharing a
participant are the same interaction (so each actor is in at most one
active talk); and a `talk_request` whose initiator or target already
participates in some active talk fails with the state unchanged. -/
theorem talk_exclusivity_spec (s : WorldState) (hs : ReachableTalk s) :
    (∀ (a iid1 iid2 : String) (i1 i2 : Interaction),
      alookup s.interactions iid1 = some i1 →
      alookup s.interactions iid2 = some i2 →
      i1.kind = "talk" → i1.status = "active" →
      i2.kind = "talk" → i2.status = "active" →
      (a = i1.initiator ∨ a = i1.target) → (a = i2.initiator ∨ a = i2.target) →
      iid1 = iid2)
    ∧ (∀ (init targ room : String),
        (∃ iid i, alookup s.interactions iid = some i ∧ i.kind = "talk"
          ∧ i.status = "active"
          ∧ (init = i.initiator ∨ init = i.target ∨ targ = i.initiator
              ∨ targ = i.target)) →
        (talk_request s init targ room).2.ok = false
        ∧ (talk_request s init targ room).1 = s) := by
  have hinv := reachable_talk_inv s hs
  constructor
  · intro a iid1 iid2 i1 i2 h1 h2 k1 st1 k2 st2 _ _
    exact hinv.2.2 iid1 i1 iid2 i2 h1 h2
      (by simp [talk_nonterminal, k1, st1])
      (by simp [talk_nonterminal, k2, st2])
  · rintro init targ room ⟨iid, i, hlk, hk, hst, hdis⟩
    have hmem := alookup_mem hlk
    simp only [talk_request]
    split_ifs with c1 c2 c3 c4
    · exact ⟨rfl, rfl⟩
    · exact ⟨rfl, rfl⟩
    · exact ⟨rfl, rfl⟩
    · exact ⟨rfl, rfl⟩
    · exfalso
      simp only [List.any_eq_true, not_exists, not_and] at c3
      exact c3 (iid, i) hmem
        (by rcases hdis with hd | hd | hd | hd <;> simp [hk, hst, hd])

/-- Witness for C4 at a concretely reached state: Kevin's dispatched
`talk_request` followed by Anna's dispatched `talk_accept` yields an active
talk `i1`; the exclusivity bound instantiates at it, and a further
`talk_request` by Kevin fails without changing the state. -/
theorem talk_exclusivity_spec_witness :
    alookup state_active_talk.interactions "i1" = some active_talk_i1
    ∧ active_talk_i1.kind = "talk"
    ∧ active_talk_i1.status = "active"
    ∧ ("i1" : String) = "i1"
    ∧ ((talk_request state_active_talk "kevin" "anna" "living_room").2.ok
        = false
      ∧ (talk_request state_active_talk "kevin" "anna" "living_room").1
        = state_active_talk) := by
  have hreach : ReachableTalk state_active_talk :=
    ReachableTalk.step _ empty_house "anna" "talk_accept"
      [("interaction_id", AVal.vStr "i1")]
      (ReachableTalk.step _ empty_house "kevin" "talk_request"
        [("target", AVal.vStr "anna")] ReachableTalk.init)
  have h := talk_exclusivity_spec state_active_talk hreach
  refine ⟨by decide, rfl, rfl, ?_, ?_⟩
  · exact h.1 "kevin" "i1" "i1" active_talk_i1 active_talk_i1 (by decide)
      (by decide) rfl rfl rfl rfl (Or.inl rfl) (Or.inl rfl)
  · exact h.2 "kevin" "anna" "living_room"
      ⟨"i1", active_talk_i1, by decide, rfl, rfl, Or.inl rfl⟩
